import Mathlib

/-!
Verification of the Smart Traffic Management System simulation
(`Seattle_ai_hackathon_project`): a shallow embedding of the agent
state machines (traffic lights, vehicles, drones), the message bus,
the grid read-model and the simulation controller, together with
theorems settling the specification claims about them.

Python integers are modelled as `Int` (or `Nat` for counters that the
source never makes negative), the drone battery (a Python float that
only ever holds exact dyadic values: 100 minus multiples of 0.5) as
`ℚ`, and calls into the `random` module as explicit oracle arguments.
-/

/-- A grid cell: an integer pair `(x, y)`, as in the source's tuples. -/
abbrev Pos := Int × Int

/-! ## Traffic light agent (`agents/traffic_light.py`) -/

inductive TrafficLightState where
  | RED
  | YELLOW
  | GREEN
deriving DecidableEq, Repr

/-- State of `TrafficLightAgent` (`agents/traffic_light.py`, `__init__`).
`direction` is `0` when North-South is open and `1` when East-West is
open, as in the source. -/
structure TrafficLightAgent where
  id : String
  position : Pos
  state : TrafficLightState
  timer : Nat
  red_duration : Nat
  yellow_duration : Nat
  green_duration : Nat
  vehicles_passed : Nat
  congestion_level : Nat
  direction : Nat
deriving DecidableEq, Repr

/-- Environment data handed to a light by the controller
(`_get_environment_data_for_light`): vehicle counts per axis. -/
structure LightEnv where
  vehicles_ns : Nat
  vehicles_ew : Nat
deriving DecidableEq, Repr

/-- `TrafficLightAgent._analyze_traffic`.  The float comparison
`vehicles_ns > vehicles_ew * 1.5` is exact on these integer counts and
is rendered as `2 * ns > 3 * ew`. -/
def TrafficLightAgent.analyze_traffic (l : TrafficLightAgent) (e : LightEnv) :
    TrafficLightAgent :=
  if 2 * e.vehicles_ns > 3 * e.vehicles_ew ∧ l.direction = 1 then
    { l with green_duration := max 15 (l.green_duration - 5) }
  else if 2 * e.vehicles_ew > 3 * e.vehicles_ns ∧ l.direction = 0 then
    { l with green_duration := max 15 (l.green_duration - 5) }
  else
    { l with green_duration := min 45 (l.green_duration + 1) }

/-- `TrafficLightAgent.step`: increment the timer, optionally run the
adaptive analysis, then the time-triggered phase machine. -/
def TrafficLightAgent.step (l : TrafficLightAgent) (env : Option LightEnv) :
    TrafficLightAgent :=
  let l := { l with timer := l.timer + 1 }
  let l := match env with
    | some e => l.analyze_traffic e
    | none => l
  match l.state with
  | .RED =>
      if l.timer ≥ l.red_duration then
        { l with state := .GREEN, timer := 0, direction := 1 - l.direction }
      else l
  | .YELLOW =>
      if l.timer ≥ l.yellow_duration then
        { l with state := .RED, timer := 0 }
      else l
  | .GREEN =>
      if l.timer ≥ l.green_duration then
        { l with state := .YELLOW, timer := 0 }
      else l

/-- Iterate `step` with no environment data (no adaptive tuning). -/
def lightIter (l : TrafficLightAgent) : Nat → TrafficLightAgent
  | 0 => l
  | k + 1 => (lightIter l k).step none

/-- A light as created by the controller with default timings, taking
the RED branch of the random initial-state choice. -/
def light0 : TrafficLightAgent :=
  { id := "TL-1", position := (1, 1), state := .RED, timer := 0,
    red_duration := 30, yellow_duration := 5, green_duration := 30,
    vehicles_passed := 0, congestion_level := 0, direction := 0 }

theorem TrafficLightAgent.step_red_stay (l : TrafficLightAgent)
    (h : l.state = .RED) (hlt : l.timer + 1 < l.red_duration) :
    l.step none = { l with timer := l.timer + 1 } := by
  obtain ⟨i, p, st, t, rd, yd, gd, vp, cl, dir⟩ := l
  simp only at h hlt
  subst h
  simp only [TrafficLightAgent.step]
  rw [if_neg (by omega)]

theorem TrafficLightAgent.step_red_go (l : TrafficLightAgent)
    (h : l.state = .RED) (hge : l.red_duration ≤ l.timer + 1) :
    l.step none
      = { l with state := .GREEN, timer := 0, direction := 1 - l.direction } := by
  obtain ⟨i, p, st, t, rd, yd, gd, vp, cl, dir⟩ := l
  simp only at h hge
  subst h
  simp only [TrafficLightAgent.step]
  rw [if_pos (by omega)]

theorem TrafficLightAgent.step_green_stay (l : TrafficLightAgent)
    (h : l.state = .GREEN) (hlt : l.timer + 1 < l.green_duration) :
    l.step none = { l with timer := l.timer + 1 } := by
  obtain ⟨i, p, st, t, rd, yd, gd, vp, cl, dir⟩ := l
  simp only at h hlt
  subst h
  simp only [TrafficLightAgent.step]
  rw [if_neg (by omega)]

theorem TrafficLightAgent.step_green_go (l : TrafficLightAgent)
    (h : l.state = .GREEN) (hge : l.green_duration ≤ l.timer + 1) :
    l.step none = { l with state := .YELLOW, timer := 0 } := by
  obtain ⟨i, p, st, t, rd, yd, gd, vp, cl, dir⟩ := l
  simp only at h hge
  subst h
  simp only [TrafficLightAgent.step]
  rw [if_pos (by omega)]

theorem TrafficLightAgent.step_yellow_stay (l : TrafficLightAgent)
    (h : l.state = .YELLOW) (hlt : l.timer + 1 < l.yellow_duration) :
    l.step none = { l with timer := l.timer + 1 } := by
  obtain ⟨i, p, st, t, rd, yd, gd, vp, cl, dir⟩ := l
  simp only at h hlt
  subst h
  simp only [TrafficLightAgent.step]
  rw [if_neg (by omega)]

theorem TrafficLightAgent.step_yellow_go (l : TrafficLightAgent)
    (h : l.state = .YELLOW) (hge : l.yellow_duration ≤ l.timer + 1) :
    l.step none = { l with state := .RED, timer := 0 } := by
  obtain ⟨i, p, st, t, rd, yd, gd, vp, cl, dir⟩ := l
  simp only at h hge
  subst h
  simp only [TrafficLightAgent.step]
  rw [if_pos (by omega)]

theorem lightIter_red_stay (l : TrafficLightAgent)
    (h : l.state = .RED) (h0 : l.timer = 0) :
    ∀ k, k < l.red_duration → lightIter l k = { l with timer := k }
  | 0, _ => by show l = _ ; rw [← h0]
  | k + 1, hk => by
      have ih := lightIter_red_stay l h h0 k (by omega)
      rw [lightIter, ih,
        TrafficLightAgent.step_red_stay { l with timer := k } h hk]

theorem lightIter_red_go (l : TrafficLightAgent)
    (h : l.state = .RED) (h0 : l.timer = 0) (hd : 1 ≤ l.red_duration) :
    lightIter l l.red_duration
      = { l with state := .GREEN, timer := 0, direction := 1 - l.direction } := by
  obtain ⟨d, hdd⟩ : ∃ d, l.red_duration = d + 1 := ⟨l.red_duration - 1, by omega⟩
  have h1 : lightIter l l.red_duration = (lightIter l d).step none := by
    rw [hdd]; rfl
  rw [h1, lightIter_red_stay l h h0 d (by omega),
    TrafficLightAgent.step_red_go { l with timer := d } h hdd.le]

theorem lightIter_green_stay (l : TrafficLightAgent)
    (h : l.state = .GREEN) (h0 : l.timer = 0) :
    ∀ k, k < l.green_duration → lightIter l k = { l with timer := k }
  | 0, _ => by show l = _ ; rw [← h0]
  | k + 1, hk => by
      have ih := lightIter_green_stay l h h0 k (by omega)
      rw [lightIter, ih,
        TrafficLightAgent.step_green_stay { l with timer := k } h hk]

theorem lightIter_green_go (l : TrafficLightAgent)
    (h : l.state = .GREEN) (h0 : l.timer = 0) (hd : 1 ≤ l.green_duration) :
    lightIter l l.green_duration = { l with state := .YELLOW, timer := 0 } := by
  obtain ⟨d, hdd⟩ : ∃ d, l.green_duration = d + 1 := ⟨l.green_duration - 1, by omega⟩
  have h1 : lightIter l l.green_duration = (lightIter l d).step none := by
    rw [hdd]; rfl
  rw [h1, lightIter_green_stay l h h0 d (by omega),
    TrafficLightAgent.step_green_go { l with timer := d } h hdd.le]

theorem lightIter_yellow_stay (l : TrafficLightAgent)
    (h : l.state = .YELLOW) (h0 : l.timer = 0) :
    ∀ k, k < l.yellow_duration → lightIter l k = { l with timer := k }
  | 0, _ => by show l = _ ; rw [← h0]
  | k + 1, hk => by
      have ih := lightIter_yellow_stay l h h0 k (by omega)
      rw [lightIter, ih,
        TrafficLightAgent.step_yellow_stay { l with timer := k } h hk]

theorem lightIter_yellow_go (l : TrafficLightAgent)
    (h : l.state = .YELLOW) (h0 : l.timer = 0) (hd : 1 ≤ l.yellow_duration) :
    lightIter l l.yellow_duration = { l with state := .RED, timer := 0 } := by
  obtain ⟨d, hdd⟩ : ∃ d, l.yellow_duration = d + 1 := ⟨l.yellow_duration - 1, by omega⟩
  have h1 : lightIter l l.yellow_duration = (lightIter l d).step none := by
    rw [hdd]; rfl
  rw [h1, lightIter_yellow_stay l h h0 d (by omega),
    TrafficLightAgent.step_yellow_go { l with timer := d } h hdd.le]

/-- C6: a `TrafficLightAgent` stepped with no environment data keeps each
phase for exactly its configured duration (never transitioning earlier),
resets the timer to 0 on every transition, toggles `direction`
(`openAxis`) exactly on the RED→GREEN transition and on no other, and a
light initialized to RED with durations red=30, yellow=5, green=30 is
RED at tick 29, GREEN at tick 30, YELLOW at tick 60 and RED at tick 65. -/
theorem C6_signal_phase_timing (l : TrafficLightAgent) (h0 : l.timer = 0)
    (hr : 1 ≤ l.red_duration) (hy : 1 ≤ l.yellow_duration)
    (hg : 1 ≤ l.green_duration) :
    (∀ k, k < l.red_duration → l.state = .RED →
        lightIter l k = { l with timer := k }) ∧
    (l.state = .RED →
        lightIter l l.red_duration
          = { l with state := .GREEN, timer := 0,
                     direction := 1 - l.direction }) ∧
    (∀ k, k < l.green_duration → l.state = .GREEN →
        lightIter l k = { l with timer := k }) ∧
    (l.state = .GREEN →
        lightIter l l.green_duration = { l with state := .YELLOW, timer := 0 }) ∧
    (∀ k, k < l.yellow_duration → l.state = .YELLOW →
        lightIter l k = { l with timer := k }) ∧
    (l.state = .YELLOW →
        lightIter l l.yellow_duration = { l with state := .RED, timer := 0 }) ∧
    ((lightIter light0 29).state = .RED ∧ (lightIter light0 30).state = .GREEN ∧
      (lightIter light0 60).state = .YELLOW ∧
      (lightIter light0 65).state = .RED) :=
  ⟨fun k hk hst => lightIter_red_stay l hst h0 k hk,
   fun hst => lightIter_red_go l hst h0 hr,
   fun k hk hst => lightIter_green_stay l hst h0 k hk,
   fun hst => lightIter_green_go l hst h0 hg,
   fun k hk hst => lightIter_yellow_stay l hst h0 k hk,
   fun hst => lightIter_yellow_go l hst h0 hy,
   by decide, by decide, by decide, by decide⟩

/-- Witness for `C6_signal_phase_timing` at the concrete default light. -/
theorem C6_signal_phase_timing_witness :
    lightIter light0 30
      = { light0 with state := .GREEN, timer := 0, direction := 1 } :=
  (C6_signal_phase_timing light0 rfl (by decide) (by decide) (by decide)).2.1 rfl

/-! ## Vehicle agent (`agents/vehicle.py`) -/

inductive VehicleState where
  | MOVING
  | WAITING
  | REROUTING
  | ARRIVED
deriving DecidableEq, Repr

/-- The dictionary returned by `TrafficLightAgent.get_state`, as read by
vehicles.  The source carries `direction` as the string `"East-West"`
(here `1`) or `"North-South"` (here `0`). -/
structure LightView where
  id : String
  position : Pos
  state : TrafficLightState
  direction : Nat
  timer : Nat
  congestion_level : Nat
deriving DecidableEq, Repr

/-- A congestion record assembled by
`SimulationController._get_environment_data_for_vehicle` from a
congestion anomaly message: `{'position': ..., 'level': severity}`. -/
structure CongestionArea where
  position : Pos
  level : Nat
deriving DecidableEq, Repr

/-- The environment dictionary handed to `VehicleAgent.step` by the
controller: keys `'traffic_lights'` and `'congestion'`. -/
structure VehicleEnv where
  traffic_lights : List LightView
  congestion : List CongestionArea
deriving DecidableEq, Repr

/-- State of `VehicleAgent` (`agents/vehicle.py`, `__init__`). -/
structure VehicleAgent where
  id : String
  position : Pos
  destination : Pos
  grid_size : Int
  state : VehicleState
  path : List Pos
  path_index : Nat
  waiting_time : Nat
  total_travel_time : Nat
  stops : Nat
  speed : Nat
deriving DecidableEq, Repr

/-- The x-axis `while` loop of `VehicleAgent._calculate_simple_path`:
walk `x` one unit at a time toward `destx` (direction
`1 if destination[0] > current[0] else -1`), recording each cell; the y
coordinate stays `y` throughout.  The `fuel` argument only bounds the
iteration count so that the recursion is structural; `pathXAux` below
supplies fuel equal to the distance, which the loop never exceeds. -/
def pathXGo (destx y : Int) (x : Int) : Nat → List Pos
  | 0 => []
  | fuel + 1 =>
      if x = destx then []
      else if destx > x then (x + 1, y) :: pathXGo destx y (x + 1) fuel
      else (x - 1, y) :: pathXGo destx y (x - 1) fuel

def pathXAux (destx y : Int) (x : Int) : List Pos :=
  pathXGo destx y x (destx - x).natAbs

/-- The y-axis `while` loop of `VehicleAgent._calculate_simple_path`:
after the x loop the current cell is `(x, ·)` with `x = destination.x`. -/
def pathYGo (desty x : Int) (y : Int) : Nat → List Pos
  | 0 => []
  | fuel + 1 =>
      if y = desty then []
      else if desty > y then (x, y + 1) :: pathYGo desty x (y + 1) fuel
      else (x, y - 1) :: pathYGo desty x (y - 1) fuel

def pathYAux (desty x : Int) (y : Int) : List Pos :=
  pathYGo desty x y (desty - y).natAbs

/-- `VehicleAgent._calculate_simple_path` (it reads `self.position` and
`self.destination`, both fixed at construction time). -/
def calculate_simple_path (position destination : Pos) : List Pos :=
  pathXAux destination.1 position.2 position.1
    ++ pathYAux destination.2 destination.1 position.2

/-- `VehicleAgent.__init__`. -/
def VehicleAgent.init (agent_id : String) (start_position destination : Pos)
    (grid_size : Int) : VehicleAgent :=
  { id := agent_id, position := start_position, destination := destination,
    grid_size := grid_size, state := .MOVING,
    path := calculate_simple_path start_position destination,
    path_index := 0, waiting_time := 0, total_travel_time := 0, stops := 0,
    speed := 1 }

/-- `VehicleAgent.is_moving_north_south`: note the guard compares
`path_index + 1` with `len(path)`, so with fewer than two unconsumed
path cells the method returns `False` even though `path[path_index]`
would still be in range. -/
def VehicleAgent.is_moving_north_south (v : VehicleAgent) : Bool :=
  if v.path_index + 1 < v.path.length then
    decide ((v.path.getD v.path_index (0, 0)).1 = v.position.1)
  else false

/-- The red-for-us test inside `VehicleAgent.step` (the source compares
the strings `'RED'`, `'YELLOW'`, `'East-West'`, `'North-South'`). -/
def VehicleAgent.is_red_for_us (v : VehicleAgent) (light : LightView) : Bool :=
  light.state = .RED ∨ light.state = .YELLOW ∨
    (light.direction = 1 ∧ v.is_moving_north_south = true) ∨
    (light.direction = 0 ∧ v.is_moving_north_south = false)

/-- The traffic-light `for` loop of `VehicleAgent.step`: the first light
located at the vehicle's position that is red for the vehicle (lights at
the position that are green for us are skipped, as is every light
elsewhere). -/
def firstBlockingLight (v : VehicleAgent) : List LightView → Option LightView
  | [] => none
  | light :: rest =>
      if light.position = v.position ∧ v.is_red_for_us light = true then
        some light
      else firstBlockingLight v rest

/-- Oracle for the vehicle's calls into the `random` module within one
`step`: `flips k` is the outcome of the k-th `random.random() < p`
comparison and `dirs k` the k-th
`random.choice([(0,1),(1,0),(0,-1),(-1,0)])`. -/
structure VRand where
  flips : Nat → Bool
  dirs : Nat → Fin 4

/-- The four direction tuples offered to `random.choice` in
`_recalculate_path`. -/
def dirOf : Fin 4 → Pos
  | 0 => (0, 1)
  | 1 => (1, 0)
  | 2 => (0, -1)
  | 3 => (-1, 0)

/-- A fixed oracle (every probability draw fails, every direction draw
picks `(0, 1)`), used for runs whose branches consume no randomness. -/
def rand0 : VRand := ⟨fun _ => false, fun _ => 0⟩

/-- The detour attempt loop of `_recalculate_path`: up to 3 tries to
find an in-bounds adjacent cell; returns the detour found (if any) and
the advanced direction-draw counter. -/
def tryDetour (grid_size : Int) (current : Pos) (r : VRand) (dc : Nat) :
    Nat → Option Pos × Nat
  | 0 => (none, dc)
  | tries + 1 =>
      let d := dirOf (r.dirs dc)
      let detour := (current.1 + d.1, current.2 + d.2)
      if 0 ≤ detour.1 ∧ detour.1 < grid_size ∧ 0 ≤ detour.2 ∧
          detour.2 < grid_size then
        (some detour, dc + 1)
      else tryDetour grid_size current r (dc + 1) tries

/-- The `for next_pos in remaining_path` loop of `_recalculate_path`,
threading `current`, the flip counter and the direction counter. -/
def recalcLoop (grid_size : Int) (r : VRand) :
    List Pos → Pos → Nat → Nat → List Pos × Nat × Nat
  | [], _, fc, dc => ([], fc, dc)
  | next_pos :: rest, current, fc, dc =>
      if r.flips fc then
        match tryDetour grid_size current r dc 3 with
        | (some detour, dc') =>
            let res := recalcLoop grid_size r rest next_pos (fc + 1) dc'
            (detour :: next_pos :: res.1, res.2.1, res.2.2)
        | (none, dc') =>
            let res := recalcLoop grid_size r rest next_pos (fc + 1) dc'
            (next_pos :: res.1, res.2.1, res.2.2)
      else
        let res := recalcLoop grid_size r rest next_pos (fc + 1) dc
        (next_pos :: res.1, res.2.1, res.2.2)

/-- `VehicleAgent._recalculate_path`. -/
def VehicleAgent.recalculate_path (v : VehicleAgent) (r : VRand)
    (fc dc : Nat) : VehicleAgent × Nat × Nat :=
  let res := recalcLoop v.grid_size r (v.path.drop v.path_index)
    v.position fc dc
  ({ v with path := v.path.take v.path_index ++ res.1 }, res.2.1, res.2.2)

/-- The congestion `for` loop of `VehicleAgent.step`.  The final `Bool`
is `true` when the loop returned early (the slow-down branch); a
successful reroute continues iterating. -/
def congestionLoop (r : VRand) :
    List CongestionArea → VehicleAgent → Nat → Nat →
      VehicleAgent × Nat × Nat × Bool
  | [], v, fc, dc => (v, fc, dc, false)
  | area :: rest, v, fc, dc =>
      if area.position = v.position ∧ area.level > 7 then
        if r.flips fc then
          let v' := { v with state := VehicleState.REROUTING }
          let res := v'.recalculate_path r (fc + 1) dc
          congestionLoop r rest { res.1 with state := VehicleState.MOVING }
            res.2.1 res.2.2
        else
          ({ v with waiting_time := v.waiting_time + 1 }, fc + 1, dc, true)
      else congestionLoop r rest v fc dc

/-- The `if self.state == VehicleState.WAITING` stop counting at the
top of the movement tail of `VehicleAgent.step`. -/
def VehicleAgent.countStop (v : VehicleAgent) : VehicleAgent :=
  if v.state = VehicleState.WAITING then { v with stops := v.stops + 1 }
  else v

/-- The destination check after consuming a path cell in
`VehicleAgent.step`. -/
def VehicleAgent.arriveCheck (v : VehicleAgent) : VehicleAgent :=
  if v.position = v.destination then { v with state := VehicleState.ARRIVED }
  else v

/-- Path-cell consumption in `VehicleAgent.step`: advance along the
path if any cells remain, otherwise the journey is complete. -/
def VehicleAgent.moveConsume (v : VehicleAgent) : VehicleAgent :=
  if v.path_index < v.path.length then
    VehicleAgent.arriveCheck
      { v with position := v.path.getD v.path_index (0, 0),
               path_index := v.path_index + 1 }
  else { v with state := VehicleState.ARRIVED }

/-- The movement tail of `VehicleAgent.step`: count a stop if the
vehicle was waiting, set MOVING, consume the next path cell, and detect
arrival (by reaching the destination or exhausting the path). -/
def VehicleAgent.movePhase (v : VehicleAgent) : VehicleAgent :=
  VehicleAgent.moveConsume { v.countStop with state := VehicleState.MOVING }

/-- Exit of the congestion loop in `VehicleAgent.step`: an early
`return` (slow-down) ends the tick, otherwise execution falls through
to the movement tail. -/
def congExit (res : VehicleAgent × Nat × Nat × Bool) : VehicleAgent :=
  if res.2.2.2 then res.1 else res.1.movePhase

/-- `VehicleAgent.step` after the initial `total_travel_time`
increment. -/
def VehicleAgent.stepCore (v : VehicleAgent) (env : Option VehicleEnv)
    (r : VRand) : VehicleAgent :=
  if v.state = VehicleState.ARRIVED then v
  else
    match env with
    | none => v.movePhase
    | some e =>
        match firstBlockingLight v e.traffic_lights with
        | some _ =>
            { v with state := VehicleState.WAITING,
                     waiting_time := v.waiting_time + 1 }
        | none => congExit (congestionLoop r e.congestion v 0 0)

/-- `VehicleAgent.step`: `self.total_travel_time += 1` happens before
the ARRIVED early return. -/
def VehicleAgent.step (v : VehicleAgent) (env : Option VehicleEnv)
    (r : VRand) : VehicleAgent :=
  VehicleAgent.stepCore
    { v with total_travel_time := v.total_travel_time + 1 } env r

/-- Iterate `VehicleAgent.step` under a fixed environment and oracle. -/
def vehIter (v : VehicleAgent) (env : Option VehicleEnv) (r : VRand) :
    Nat → VehicleAgent
  | 0 => v
  | k + 1 => (vehIter v env r k).step env r

/-- The single vehicle of the end-to-end scenario of the spec: from
`(0,0)` to `(4,4)` on a 5×5 grid. -/
def veh0 : VehicleAgent := VehicleAgent.init "V-1" (0, 0) (4, 4) 5

theorem range_map_succ {α : Type} (n : Nat) (f : Nat → α) :
    (List.range (n + 1)).map f
      = f 0 :: (List.range n).map fun k => f (k + 1) := by
  rw [List.range_succ_eq_map, List.map_cons, List.map_map]
  rfl

theorem pathXGo_up (destx y : Int) :
    ∀ (n : Nat) (x : Int), x + n = destx →
      pathXGo destx y x n
        = (List.range n).map fun (k : Nat) => (x + (k : Int) + 1, y)
  | 0, x, _ => rfl
  | n + 1, x, h => by
      have hne : ¬ x = destx := by push_cast at h; omega
      have hgt : destx > x := by push_cast at h; omega
      rw [pathXGo, if_neg hne, if_pos hgt,
        pathXGo_up destx y n (x + 1) (by push_cast at h ⊢; omega),
        range_map_succ]
      congr 1
      · simp
      · apply List.map_congr_left
        intro k _
        simp only [Prod.mk.injEq, and_true]
        push_cast
        ring

theorem pathXGo_down (destx y : Int) :
    ∀ (n : Nat) (x : Int), x - n = destx →
      pathXGo destx y x n
        = (List.range n).map fun (k : Nat) => (x - (k : Int) - 1, y)
  | 0, x, _ => rfl
  | n + 1, x, h => by
      have hne : ¬ x = destx := by push_cast at h; omega
      have hngt : ¬ destx > x := by push_cast at h; omega
      rw [pathXGo, if_neg hne, if_neg hngt,
        pathXGo_down destx y n (x - 1) (by push_cast at h ⊢; omega),
        range_map_succ]
      congr 1
      · simp
      · apply List.map_congr_left
        intro k _
        simp only [Prod.mk.injEq, and_true]
        push_cast
        ring

theorem pathXAux_eq (destx y x : Int) :
    pathXAux destx y x
      = (List.range (destx - x).natAbs).map
          fun (k : Nat) => (x + (if destx > x then 1 else -1) * ((k : Int) + 1), y) := by
  rcases lt_trichotomy x destx with hlt | heq | hgt
  · rw [pathXAux, pathXGo_up destx y _ x (by omega)]
    apply List.map_congr_left
    intro k _
    rw [if_pos hlt]
    simp only [Prod.mk.injEq, and_true]
    ring
  · subst heq
    simp [pathXAux, pathXGo]
  · rw [pathXAux, pathXGo_down destx y _ x (by omega)]
    apply List.map_congr_left
    intro k _
    rw [if_neg (by omega)]
    simp only [Prod.mk.injEq, and_true]
    ring

theorem pathYGo_up (desty x : Int) :
    ∀ (n : Nat) (y : Int), y + n = desty →
      pathYGo desty x y n
        = (List.range n).map fun (k : Nat) => (x, y + (k : Int) + 1)
  | 0, y, _ => rfl
  | n + 1, y, h => by
      have hne : ¬ y = desty := by push_cast at h; omega
      have hgt : desty > y := by push_cast at h; omega
      rw [pathYGo, if_neg hne, if_pos hgt,
        pathYGo_up desty x n (y + 1) (by push_cast at h ⊢; omega),
        range_map_succ]
      congr 1
      · simp
      · apply List.map_congr_left
        intro k _
        simp only [Prod.mk.injEq, true_and]
        push_cast
        ring

theorem pathYGo_down (desty x : Int) :
    ∀ (n : Nat) (y : Int), y - n = desty →
      pathYGo desty x y n
        = (List.range n).map fun (k : Nat) => (x, y - (k : Int) - 1)
  | 0, y, _ => rfl
  | n + 1, y, h => by
      have hne : ¬ y = desty := by push_cast at h; omega
      have hngt : ¬ desty > y := by push_cast at h; omega
      rw [pathYGo, if_neg hne, if_neg hngt,
        pathYGo_down desty x n (y - 1) (by push_cast at h ⊢; omega),
        range_map_succ]
      congr 1
      · simp
      · apply List.map_congr_left
        intro k _
        simp only [Prod.mk.injEq, true_and]
        push_cast
        ring

theorem pathYAux_eq (desty x y : Int) :
    pathYAux desty x y
      = (List.range (desty - y).natAbs).map
          fun (k : Nat) => (x, y + (if desty > y then 1 else -1) * ((k : Int) + 1)) := by
  rcases lt_trichotomy y desty with hlt | heq | hgt
  · rw [pathYAux, pathYGo_up desty x _ y (by omega)]
    apply List.map_congr_left
    intro k _
    rw [if_pos hlt]
    simp only [Prod.mk.injEq, true_and]
    ring
  · subst heq
    simp [pathYAux, pathYGo]
  · rw [pathYAux, pathYGo_down desty x _ y (by omega)]
    apply List.map_congr_left
    intro k _
    rw [if_neg (by omega)]
    simp only [Prod.mk.injEq, true_and]
    ring

/-- The path as §4.4 of the spec words it: all x-axis unit steps toward
`destination.x` first (the k-th listed cell is k unit steps from the
origin along x), then all y-axis unit steps toward `destination.y`,
an L-shaped Manhattan path determined by origin and destination alone. -/
def specLPath (pos dest : Pos) : List Pos :=
  ((List.range (dest.1 - pos.1).natAbs).map
      fun (k : Nat) =>
        (pos.1 + (if dest.1 > pos.1 then 1 else -1) * ((k : Int) + 1), pos.2))
    ++ ((List.range (dest.2 - pos.2).natAbs).map
      fun (k : Nat) =>
        (dest.1, pos.2 + (if dest.2 > pos.2 then 1 else -1) * ((k : Int) + 1)))

theorem countStop_total (v : VehicleAgent) :
    v.countStop.total_travel_time = v.total_travel_time := by
  unfold VehicleAgent.countStop
  split <;> rfl

theorem arriveCheck_total (v : VehicleAgent) :
    v.arriveCheck.total_travel_time = v.total_travel_time := by
  unfold VehicleAgent.arriveCheck
  split <;> rfl

theorem moveConsume_total (v : VehicleAgent) :
    v.moveConsume.total_travel_time = v.total_travel_time := by
  unfold VehicleAgent.moveConsume
  split
  · exact arriveCheck_total _
  · rfl

theorem movePhase_total (v : VehicleAgent) :
    v.movePhase.total_travel_time = v.total_travel_time := by
  unfold VehicleAgent.movePhase
  rw [moveConsume_total]
  exact countStop_total v

theorem arriveCheck_state (v : VehicleAgent) :
    v.arriveCheck.state = VehicleState.ARRIVED ∨ v.arriveCheck.state = v.state := by
  unfold VehicleAgent.arriveCheck
  split <;> simp

theorem movePhase_state_not_waiting (v : VehicleAgent) :
    v.movePhase.state ≠ VehicleState.WAITING := by
  unfold VehicleAgent.movePhase VehicleAgent.moveConsume
  split
  · rcases arriveCheck_state
      { v.countStop with
        state := VehicleState.MOVING,
        position := ({ v.countStop with
          state := VehicleState.MOVING } : VehicleAgent).path.getD
            ({ v.countStop with state := VehicleState.MOVING}
              : VehicleAgent).path_index (0, 0),
        path_index := ({ v.countStop with state := VehicleState.MOVING }
          : VehicleAgent).path_index + 1 } with h | h <;> rw [h] <;> simp
  · simp

theorem congestionLoop_total (r : VRand) :
    ∀ (areas : List CongestionArea) (v : VehicleAgent) (fc dc : Nat),
      (congestionLoop r areas v fc dc).1.total_travel_time
        = v.total_travel_time
  | [], _, _, _ => rfl
  | area :: rest, v, fc, dc => by
      unfold congestionLoop
      split
      · split
        · exact congestionLoop_total r rest _ _ _
        · rfl
      · exact congestionLoop_total r rest v fc dc

theorem congestionLoop_noMatch (r : VRand) :
    ∀ (areas : List CongestionArea) (v : VehicleAgent) (fc dc : Nat),
      (∀ a ∈ areas, ¬(a.position = v.position ∧ a.level > 7)) →
      congestionLoop r areas v fc dc = (v, fc, dc, false)
  | [], _, _, _, _ => rfl
  | area :: rest, v, fc, dc, h => by
      unfold congestionLoop
      rw [if_neg (h area (by simp))]
      exact congestionLoop_noMatch r rest v fc dc
        fun a ha => h a (by simp [ha])

/-- C7: the precomputed path of every vehicle is the deterministic
L-shaped Manhattan path (all x-axis unit steps toward `destination.x`,
then all y-axis unit steps toward `destination.y`); and the single
vehicle from `(0,0)` to `(4,4)` on a 5×5 grid, stepped with an
environment carrying no lights and no congestion records, is not yet
ARRIVED after 7 ticks, is ARRIVED after exactly 8 ticks, and has
`stops = 0` there. -/
theorem C7_lshaped_path_and_eight_tick_arrival :
    (∀ pos dest : Pos, calculate_simple_path pos dest = specLPath pos dest) ∧
    veh0.path = [(1,0),(2,0),(3,0),(4,0),(4,1),(4,2),(4,3),(4,4)] ∧
    (vehIter veh0 (some ⟨[], []⟩) rand0 7).state ≠ VehicleState.ARRIVED ∧
    (vehIter veh0 (some ⟨[], []⟩) rand0 8).state = VehicleState.ARRIVED ∧
    (vehIter veh0 (some ⟨[], []⟩) rand0 8).stops = 0 :=
  ⟨fun pos dest => by
      rw [calculate_simple_path, specLPath, pathXAux_eq, pathYAux_eq],
   by decide, by decide, by decide, by decide⟩

/-! ### Settling C4: the ARRIVED early return and `total_travel_time` -/

theorem VehicleAgent.stepCore_arrived (v : VehicleAgent)
    (env : Option VehicleEnv) (r : VRand)
    (h : v.state = VehicleState.ARRIVED) :
    v.stepCore env r = v := by
  unfold VehicleAgent.stepCore
  rw [if_pos h]

theorem VehicleAgent.stepCore_total (v : VehicleAgent)
    (env : Option VehicleEnv) (r : VRand) :
    (v.stepCore env r).total_travel_time = v.total_travel_time := by
  unfold VehicleAgent.stepCore
  split
  · rfl
  · cases env with
    | none => exact movePhase_total v
    | some e =>
        cases hfb : firstBlockingLight v e.traffic_lights with
        | some l => simp only [hfb]
        | none =>
            simp only [hfb]
            unfold congExit
            split
            · exact congestionLoop_total r e.congestion v 0 0
            · rw [movePhase_total]
              exact congestionLoop_total r e.congestion v 0 0

/-- The claim C4 as frozen: a `step` on an ARRIVED vehicle changes no
field at all, while on any other vehicle `total_travel_time` gains
exactly one. -/
def claimC4 : Prop :=
  ∀ (v : VehicleAgent) (env : Option VehicleEnv) (r : VRand),
    (v.state = VehicleState.ARRIVED → v.step env r = v) ∧
    (v.state ≠ VehicleState.ARRIVED →
      (v.step env r).total_travel_time = v.total_travel_time + 1)

/-- C4 fails on the code: the vehicle of the C7 scenario, stepped 8
times to ARRIVED, still has `total_travel_time` incremented by a 9th
step call, because `self.total_travel_time += 1` precedes the ARRIVED
early return. -/
theorem C4_arrived_step_counterexample : ¬ claimC4 := by
  intro h
  have h8 : (vehIter veh0 (some ⟨[], []⟩) rand0 8).state
      = VehicleState.ARRIVED := by decide
  have heq := (h (vehIter veh0 (some ⟨[], []⟩) rand0 8)
    (some ⟨[], []⟩) rand0).1 h8
  have := congrArg VehicleAgent.total_travel_time heq
  revert this
  decide

/-- C4 amended: every `step` call, terminal or not, increments
`total_travel_time` by exactly one (whatever branch runs and whatever
the oracle says), and a step on an ARRIVED vehicle changes nothing
else. -/
theorem C4_travel_time_per_step (v : VehicleAgent)
    (env : Option VehicleEnv) (r : VRand) :
    (v.step env r).total_travel_time = v.total_travel_time + 1 ∧
    (v.state = VehicleState.ARRIVED →
      v.step env r
        = { v with total_travel_time := v.total_travel_time + 1 }) := by
  constructor
  · unfold VehicleAgent.step
    rw [VehicleAgent.stepCore_total]
  · intro h
    unfold VehicleAgent.step
    exact VehicleAgent.stepCore_arrived _ env r h

/-- Witness for `C4_travel_time_per_step` at the ARRIVED vehicle of the
C7 run. -/
theorem C4_travel_time_per_step_witness :
    (vehIter veh0 (some ⟨[], []⟩) rand0 8).step (some ⟨[], []⟩) rand0
      = { vehIter veh0 (some ⟨[], []⟩) rand0 8 with
          total_travel_time :=
            (vehIter veh0 (some ⟨[], []⟩) rand0 8).total_travel_time + 1 } :=
  (C4_travel_time_per_step (vehIter veh0 (some ⟨[], []⟩) rand0 8)
    (some ⟨[], []⟩) rand0).2 (by decide)

/-! ### Settling C5: waiting at a light -/

/-- "North-south movement" as the claim words it: the next path cell has
the same x as the current cell. -/
def nsClaim (v : VehicleAgent) : Prop :=
  (v.path.getD v.path_index (0, 0)).1 = v.position.1

instance (v : VehicleAgent) : Decidable (nsClaim v) := by
  unfold nsClaim
  infer_instance

/-- "North-south movement" as `is_moving_north_south` computes it: at
least two unconsumed path cells are additionally required. -/
def nsCode (v : VehicleAgent) : Prop :=
  v.path_index + 1 < v.path.length ∧ nsClaim v

instance (v : VehicleAgent) : Decidable (nsCode v) := by
  unfold nsCode
  infer_instance

theorem is_moving_north_south_iff (v : VehicleAgent) :
    v.is_moving_north_south = true ↔ nsCode v := by
  unfold VehicleAgent.is_moving_north_south nsCode nsClaim
  split
  · simp only [decide_eq_true_eq]
    exact ⟨fun hp => ⟨by assumption, hp⟩, fun hp => hp.2⟩
  · simp only [Bool.false_eq_true, false_iff]
    intro hc
    exact absurd hc.1 (by assumption)

/-- The red-for-us condition, propositionally, with the code's notion of
the movement axis. -/
def redForUsProp (v : VehicleAgent) (light : LightView) : Prop :=
  light.state = TrafficLightState.RED ∨
    light.state = TrafficLightState.YELLOW ∨
    (light.direction = 1 ∧ nsCode v) ∨ (light.direction = 0 ∧ ¬ nsCode v)

instance (v : VehicleAgent) (light : LightView) :
    Decidable (redForUsProp v light) := by
  unfold redForUsProp
  infer_instance

theorem is_red_for_us_iff (v : VehicleAgent) (light : LightView) :
    v.is_red_for_us light = true ↔ redForUsProp v light := by
  have hns : (v.is_moving_north_south = false) ↔ ¬ nsCode v := by
    rw [← is_moving_north_south_iff]
    cases v.is_moving_north_south <;> simp
  unfold VehicleAgent.is_red_for_us redForUsProp
  simp only [decide_eq_true_eq]
  rw [is_moving_north_south_iff, hns]

theorem VehicleAgent.stepCore_single_light_red (v : VehicleAgent)
    (e : VehicleEnv) (r : VRand) (light : LightView)
    (hna : v.state ≠ VehicleState.ARRIVED)
    (hl : e.traffic_lights = [light]) (hpos : light.position = v.position)
    (hred : v.is_red_for_us light = true) :
    v.stepCore (some e) r
      = { v with state := VehicleState.WAITING,
                 waiting_time := v.waiting_time + 1 } := by
  unfold VehicleAgent.stepCore
  rw [if_neg hna]
  dsimp only
  rw [hl,
    show firstBlockingLight v [light] = some light from by
      unfold firstBlockingLight
      rw [if_pos ⟨hpos, hred⟩]]

theorem VehicleAgent.stepCore_single_light_open (v : VehicleAgent)
    (e : VehicleEnv) (r : VRand) (light : LightView)
    (hna : v.state ≠ VehicleState.ARRIVED)
    (hl : e.traffic_lights = [light])
    (hred : v.is_red_for_us light = false)
    (hcong : ∀ a ∈ e.congestion, ¬(a.position = v.position ∧ a.level > 7)) :
    v.stepCore (some e) r = v.movePhase := by
  unfold VehicleAgent.stepCore
  rw [if_neg hna]
  dsimp only
  rw [hl,
    show firstBlockingLight v [light] = none from by
      unfold firstBlockingLight
      rw [if_neg (by simp [hred])]
      rfl,
    congestionLoop_noMatch r e.congestion v 0 0 hcong]
  rfl

/-- The left-hand side of C5: this tick the vehicle waits (enters
WAITING, counts one unit of waiting time, and keeps its position). -/
def claimC5LHS (v : VehicleAgent) (env : VehicleEnv) (r : VRand) : Prop :=
  (v.step (some env) r).state = VehicleState.WAITING ∧
  (v.step (some env) r).waiting_time = v.waiting_time + 1 ∧
  (v.step (some env) r).position = v.position

instance (v : VehicleAgent) (env : VehicleEnv) (r : VRand) :
    Decidable (claimC5LHS v env r) := by
  unfold claimC5LHS
  infer_instance

/-- The right-hand side of C5 as frozen, with the claim's unguarded
notion of the movement axis. -/
def claimC5RHS (v : VehicleAgent) (light : LightView) : Prop :=
  light.state = TrafficLightState.RED ∨
    light.state = TrafficLightState.YELLOW ∨
    (light.direction = 1 ∧ nsClaim v) ∨ (light.direction = 0 ∧ ¬ nsClaim v)

instance (v : VehicleAgent) (light : LightView) :
    Decidable (claimC5RHS v light) := by
  unfold claimC5RHS
  infer_instance

/-- The claim C5 as frozen (read for environment views whose single
light sits at the vehicle's position). -/
def claimC5 : Prop :=
  ∀ (v : VehicleAgent) (env : VehicleEnv) (r : VRand) (light : LightView),
    env.traffic_lights = [light] → light.position = v.position →
    v.state ≠ VehicleState.ARRIVED →
    (claimC5LHS v env r ↔ claimC5RHS v light)

/-- C5 with only the movement-axis definition corrected to the code's
(`nsCode`), still with no restriction on congestion records. -/
def claimC5axisFixed : Prop :=
  ∀ (v : VehicleAgent) (env : VehicleEnv) (r : VRand) (light : LightView),
    env.traffic_lights = [light] → light.position = v.position →
    v.state ≠ VehicleState.ARRIVED →
    (claimC5LHS v env r ↔ redForUsProp v light)

/-- A GREEN light, open axis North-South, sitting at `(2, 2)`. -/
def cexLight : LightView :=
  { id := "TL-1", position := (2, 2), state := TrafficLightState.GREEN,
    direction := 0, timer := 0, congestion_level := 0 }

/-- A vehicle at `(2, 2)` with exactly one remaining path cell straight
ahead on the y axis (as built for origin `(2,2)`, destination `(2,3)`). -/
def cexV : VehicleAgent := VehicleAgent.init "V-1" (2, 2) (2, 3) 5

/-- A vehicle at `(2, 2)` already WAITING, two y-axis path cells left. -/
def cexVB : VehicleAgent :=
  { VehicleAgent.init "V-2" (2, 2) (2, 4) 5 with
    state := VehicleState.WAITING, waiting_time := 3,
    total_travel_time := 4 }

/-- C5 fails on the code twice over: (a) `cexV` (one remaining y-axis
path cell) waits at a GREEN North-South light because
`is_moving_north_south` demands two unconsumed cells, so the claim's
axis rule mispredicts; (b) even with the axis rule corrected, `cexVB`
(already WAITING) at an open light over a severity-8 congestion cell
takes the slow-down branch: it stays WAITING, gains a unit of waiting
time and keeps its position although the light is not red for it. -/
theorem C5_waiting_iff_counterexample : ¬ claimC5 ∧ ¬ claimC5axisFixed := by
  constructor
  · intro h
    have hc := h cexV ⟨[cexLight], []⟩ rand0 cexLight rfl rfl (by decide)
    revert hc
    unfold claimC5LHS claimC5RHS nsClaim
    decide
  · intro h
    have hc := h cexVB ⟨[cexLight], [⟨(2, 2), 8⟩]⟩ rand0 cexLight rfl rfl
      (by decide)
    revert hc
    unfold claimC5LHS redForUsProp nsCode nsClaim
    decide

/-- C5 amended: for a non-ARRIVED vehicle whose view holds exactly one
light, located at the vehicle's position, and no congestion record of
severity above 7 covering its cell, the vehicle waits (WAITING,
`waiting_time + 1`, no move) iff the light's phase is RED or YELLOW or
its open axis differs from the vehicle's movement axis, where the
vehicle counts as moving north-south exactly when at least two path
cells remain unconsumed and the next one has the current x. -/
theorem C5_waiting_iff_red_for_us (v : VehicleAgent) (env : VehicleEnv)
    (r : VRand) (light : LightView)
    (hl : env.traffic_lights = [light]) (hpos : light.position = v.position)
    (hna : v.state ≠ VehicleState.ARRIVED)
    (hcong : ∀ a ∈ env.congestion, ¬(a.position = v.position ∧ a.level > 7)) :
    claimC5LHS v env r ↔ redForUsProp v light := by
  by_cases hred : v.is_red_for_us light = true
  · have hstep :
        v.step (some env) r
          = { { v with total_travel_time := v.total_travel_time + 1 } with
              state := VehicleState.WAITING,
              waiting_time := v.waiting_time + 1 } :=
      VehicleAgent.stepCore_single_light_red _ env r light hna hl hpos hred
    constructor
    · intro _
      exact (is_red_for_us_iff v light).1 hred
    · intro _
      unfold claimC5LHS
      rw [hstep]
      exact ⟨rfl, rfl, rfl⟩
  · have hred' : v.is_red_for_us light = false := by
      revert hred
      cases v.is_red_for_us light <;> simp
    have hstep :
        v.step (some env) r
          = VehicleAgent.movePhase
              { v with total_travel_time := v.total_travel_time + 1 } :=
      VehicleAgent.stepCore_single_light_open _ env r light hna hl hred' hcong
    constructor
    · intro hLHS
      have := hLHS.1
      rw [hstep] at this
      exact absurd this (movePhase_state_not_waiting _)
    · intro hRHS
      have := (is_red_for_us_iff v light).2 hRHS
      rw [hred'] at this
      exact absurd this (by simp)

/-- Witness for `C5_waiting_iff_red_for_us`: the vehicle of the C7
scenario at its origin under a RED light there does wait. -/
theorem C5_waiting_iff_red_for_us_witness :
    claimC5LHS veh0
        ⟨[{ id := "TL-0", position := (0, 0),
            state := TrafficLightState.RED, direction := 0, timer := 0,
            congestion_level := 0 }], []⟩ rand0
      ↔ redForUsProp veh0
          { id := "TL-0", position := (0, 0),
            state := TrafficLightState.RED, direction := 0, timer := 0,
            congestion_level := 0 } :=
  C5_waiting_iff_red_for_us veh0 _ rand0 _ rfl rfl (by decide) (by decide)

/-! ## Drone agent (`agents/drone.py`) -/

inductive DroneState where
  | PATROLLING
  | MONITORING
  | REPORTING
  | RETURNING
deriving DecidableEq, Repr

/-- An anomaly dictionary appended to `detected_anomalies` by
`DroneAgent._monitor_traffic` (`'type': 'congestion'` carries the
vehicle count and `severity`; `'type': 'incident'` the vehicle id and
its waiting time). -/
inductive Anomaly where
  | congestion (position : Pos) (vehicles : Nat) (severity : Nat)
  | incident (position : Pos) (vehicle_id : String) (waiting_time : Nat)
deriving DecidableEq, Repr

/-- The dictionary `VehicleAgent.get_state` returns, as consumed by
drones and published on the bus (the derived `'progress'` display
string is omitted). -/
structure VehicleView where
  id : String
  position : Pos
  destination : Pos
  state : VehicleState
  waiting_time : Nat
  total_travel_time : Nat
  stops : Nat
deriving DecidableEq, Repr

/-- `VehicleAgent.get_state`. -/
def VehicleAgent.get_state (v : VehicleAgent) : VehicleView :=
  { id := v.id, position := v.position, destination := v.destination,
    state := v.state, waiting_time := v.waiting_time,
    total_travel_time := v.total_travel_time, stops := v.stops }

/-- State of `DroneAgent` (`agents/drone.py`, `__init__`).  The traffic
density array is a map from `(row, column)` pairs, mirroring the
source's `traffic_density_map[y, x]` indexing; the battery is the exact
rational value of the float (100 minus multiples of 0.5). -/
structure DroneAgent where
  id : String
  position : Pos
  grid_size : Int
  state : DroneState
  patrol_area : Pos × Pos
  speed : Int
  battery : ℚ
  battery_drain_rate : ℚ
  waypoints : List Pos
  current_waypoint_index : Nat
  detected_anomalies : List Anomaly
  traffic_density_map : Pos → ℚ

/-- `DroneAgent._generate_patrol_waypoints`, with the randomness (the
3–6 random interior cells and the shuffle) supplied by an oracle `gen`:
the n-th call returns `gen n` as the shuffled list of corners plus
random cells, to which the method appends the drone's current position
to close the loop. -/
def generate_patrol_waypoints (gen : Nat → List Pos) (n : Nat)
    (pos : Pos) : List Pos :=
  gen n ++ [pos]

/-- The lists `random.randint`/`random.shuffle` could actually hand to
`_generate_patrol_waypoints` for a given patrol box: a permutation of
the four corners together with 3–6 cells inside the box. -/
def admissibleWaypointBase (patrol_area : Pos × Pos) (l : List Pos) :
    Prop :=
  ∃ interior : List Pos,
    3 ≤ interior.length ∧ interior.length ≤ 6 ∧
    (∀ p ∈ interior,
      patrol_area.1.1 ≤ p.1 ∧ p.1 ≤ patrol_area.2.1 ∧
      patrol_area.1.2 ≤ p.2 ∧ p.2 ≤ patrol_area.2.2) ∧
    l.Perm ([(patrol_area.1.1, patrol_area.1.2),
      (patrol_area.2.1, patrol_area.1.2),
      (patrol_area.2.1, patrol_area.2.2),
      (patrol_area.1.1, patrol_area.2.2)] ++ interior)

/-- `DroneAgent.__init__` (consuming oracle slot 0 for the initial
waypoint generation). -/
def DroneAgent.init (agent_id : String) (start_position : Pos)
    (grid_size : Int) (patrol_area : Option (Pos × Pos))
    (gen : Nat → List Pos) : DroneAgent :=
  { id := agent_id, position := start_position, grid_size := grid_size,
    state := DroneState.PATROLLING,
    patrol_area :=
      patrol_area.getD ((0, 0), (grid_size - 1, grid_size - 1)),
    speed := 1, battery := 100, battery_drain_rate := 1/2,
    waypoints := generate_patrol_waypoints gen 0 start_position,
    current_waypoint_index := 0, detected_anomalies := [],
    traffic_density_map := fun _ => 0 }

/-- Vehicles within Manhattan distance 2 of a position, in roster
order. -/
def nearbyVehicles (pos : Pos) (vehicles : List VehicleView) :
    List VehicleView :=
  vehicles.filter fun vv =>
    (pos.1 - vv.position.1).natAbs + (pos.2 - vv.position.2).natAbs ≤ 2

/-- The incident loop of `_monitor_traffic`, threading the drone state
and the accumulated anomaly list (each detection pulses REPORTING and
lands back on PATROLLING within the same call, so the net state write is
PATROLLING). -/
def monitorIncidents :
    List VehicleView → DroneState × List Anomaly →
      DroneState × List Anomaly
  | [], acc => acc
  | vv :: rest, (st, anoms) =>
      if vv.state = VehicleState.WAITING ∧ vv.waiting_time > 10 then
        monitorIncidents rest (DroneState.PATROLLING,
          anoms ++ [Anomaly.incident vv.position vv.id vv.waiting_time])
      else monitorIncidents rest (st, anoms)

/-- The congestion branch of `_monitor_traffic` (again, the transient
REPORTING pulse nets out to PATROLLING). -/
def congPulse (d : DroneAgent) (nearby : List VehicleView) :
    DroneState × List Anomaly :=
  if nearby.length > 3 then
    (DroneState.PATROLLING,
     d.detected_anomalies
       ++ [Anomaly.congestion d.position nearby.length
            (min 10 nearby.length)])
  else (d.state, d.detected_anomalies)

/-- Writing back the results of `_monitor_traffic`: the density array
is zeroed at the drone's own cell and then incremented once per nearby
vehicle, so its final own-cell value is the nearby count. -/
def monitorFinish (d : DroneAgent) (count : Nat)
    (res : DroneState × List Anomaly) : DroneAgent :=
  { d with
    traffic_density_map := fun p =>
      if p = (d.position.2, d.position.1) then (count : ℚ)
      else d.traffic_density_map p,
    state := res.1,
    detected_anomalies := res.2 }

/-- `DroneAgent._monitor_traffic`. -/
def DroneAgent.monitor_traffic (d : DroneAgent)
    (vehicles : List VehicleView) : DroneAgent :=
  monitorFinish d (nearbyVehicles d.position vehicles).length
    (monitorIncidents (nearbyVehicles d.position vehicles)
      (congPulse d (nearbyVehicles d.position vehicles)))

theorem monitorIncidents_spec :
    ∀ (l : List VehicleView) (st : DroneState) (anoms : List Anomaly),
      (monitorIncidents l (st, anoms)).2
        = anoms
          ++ (l.filter fun vv =>
                decide (vv.state = VehicleState.WAITING ∧
                  vv.waiting_time > 10)).map
              fun vv => Anomaly.incident vv.position vv.id vv.waiting_time
  | [], st, anoms => by simp [monitorIncidents]
  | vv :: rest, st, anoms => by
      unfold monitorIncidents
      split
      · rw [monitorIncidents_spec rest _ _]
        simp only [List.filter_cons, decide_eq_true_eq, if_pos
          (by assumption), List.map_cons, List.append_assoc,
          List.singleton_append]
      · rw [monitorIncidents_spec rest _ _]
        rw [List.filter_cons_of_neg (by
          rename_i hneg
          simpa using fun hw => by
            rcases not_and_or.1 hneg with h1 | h2
            · exact absurd hw h1
            · omega)]

/-- C8: one `_monitor_traffic` call appends, to the pending anomaly
queue, exactly one CONGESTION record — with the count of vehicles
within Manhattan distance ≤ 2 and severity `min 10 count` — iff that
count exceeds 3, followed by exactly one INCIDENT record for each
proximate vehicle that is WAITING with waiting time above 10, and
nothing else. -/
theorem C8_monitor_anomaly_emission (d : DroneAgent)
    (vehicles : List VehicleView) :
    (d.monitor_traffic vehicles).detected_anomalies
      = d.detected_anomalies
        ++ (if (nearbyVehicles d.position vehicles).length > 3 then
              [Anomaly.congestion d.position
                (nearbyVehicles d.position vehicles).length
                (min 10 (nearbyVehicles d.position vehicles).length)]
            else [])
        ++ ((nearbyVehicles d.position vehicles).filter fun vv =>
              decide (vv.state = VehicleState.WAITING ∧
                vv.waiting_time > 10)).map
            fun vv => Anomaly.incident vv.position vv.id vv.waiting_time := by
  show (monitorIncidents _ (congPulse d _)).2 = _
  by_cases hc : (nearbyVehicles d.position vehicles).length > 3
  · rw [show congPulse d (nearbyVehicles d.position vehicles)
        = (DroneState.PATROLLING,
           d.detected_anomalies
             ++ [Anomaly.congestion d.position
                  (nearbyVehicles d.position vehicles).length
                  (min 10 (nearbyVehicles d.position vehicles).length)])
        from by unfold congPulse; rw [if_pos hc]]
    rw [monitorIncidents_spec, if_pos hc, List.append_assoc]
  · rw [show congPulse d (nearbyVehicles d.position vehicles)
        = (d.state, d.detected_anomalies)
        from by unfold congPulse; rw [if_neg hc]]
    rw [monitorIncidents_spec, if_neg hc, List.append_nil]

/-- The battery drain at the top of `DroneAgent.step`. -/
def DroneAgent.drain (d : DroneAgent) : DroneAgent :=
  { d with battery := d.battery - d.battery_drain_rate }

/-- The low-battery branch of `DroneAgent.step`: below 20 and not
already RETURNING, the route is replaced by `[position, (0, 0)]`. -/
def DroneAgent.lowBatteryCheck (d : DroneAgent) : DroneAgent :=
  if d.battery < 20 ∧ d.state ≠ DroneState.RETURNING then
    { d with state := DroneState.RETURNING,
             waypoints := [d.position, (0, 0)],
             current_waypoint_index := 0 }
  else d

/-- The recharge branch of `DroneAgent.step`: RETURNING at `(0, 0)`
resets the battery, resumes PATROLLING and regenerates waypoints
(consuming one oracle slot). -/
def DroneAgent.rechargeCheck (d : DroneAgent) (gen : Nat → List Pos)
    (n : Nat) : DroneAgent × Nat :=
  if d.state = DroneState.RETURNING ∧ d.position = (0, 0) then
    ({ d with
        battery := 100,
        state := DroneState.PATROLLING,
        waypoints := generate_patrol_waypoints gen n d.position,
        current_waypoint_index := 0 },
     n + 1)
  else (d, n)

/-- The `if environment_data and 'vehicles' in environment_data`
guard. -/
def DroneAgent.processEnv (d : DroneAgent)
    (env : Option (List VehicleView)) : DroneAgent :=
  match env with
  | some vehicles => d.monitor_traffic vehicles
  | none => d

/-- One movement component,
`int(round(dx / max(1, (dx²+dy²)**0.5) * speed))` for the constructor's
`speed = 1`, computed exactly: the ratio `|dx|/√(dx²+dy²)` can never be
exactly 1/2 on integers (that would force `dy² = 3·dx²`, which has no
nonzero integer solutions), so Python's round-half-to-even never fires
and the rounded value is `sign dx` iff the ratio exceeds 1/2, i.e. iff
`3·dx² > dy²`, and `0` otherwise (the binary64 evaluation cannot cross
the 1/2 boundary for grid-scale integers). -/
def moveComponent (dx dy : Int) : Int :=
  if 3 * dx ^ 2 > dy ^ 2 then dx.sign else 0

/-- The new position after one movement step toward `target`, clamped
to the grid. -/
def steppedPos (d : DroneAgent) (target : Pos) : Pos :=
  (max 0 (min (d.grid_size - 1)
     (d.position.1
       + moveComponent (target.1 - d.position.1) (target.2 - d.position.2))),
   max 0 (min (d.grid_size - 1)
     (d.position.2
       + moveComponent (target.2 - d.position.2) (target.1 - d.position.1))))

/-- Waypoint advance after a reach: past the end of the list, the index
resets and the waypoints regenerate (consuming one oracle slot). -/
def waypointAdvance (d : DroneAgent) (gen : Nat → List Pos) (n : Nat) :
    DroneAgent × Nat :=
  if d.current_waypoint_index + 1 ≥ d.waypoints.length then
    ({ d with
        current_waypoint_index := 0,
        waypoints := generate_patrol_waypoints gen n d.position },
     n + 1)
  else ({ d with current_waypoint_index := d.current_waypoint_index + 1 }, n)

/-- The reach test (`both axis offsets ≤ 1`) after the position
update. -/
def moveReach (d : DroneAgent) (target : Pos) (gen : Nat → List Pos)
    (n : Nat) : DroneAgent × Nat :=
  if (d.position.1 - target.1).natAbs ≤ 1 ∧
      (d.position.2 - target.2).natAbs ≤ 1 then
    waypointAdvance d gen n
  else (d, n)

/-- The movement tail of `DroneAgent.step`. -/
def DroneAgent.moveToward (d : DroneAgent) (gen : Nat → List Pos)
    (n : Nat) : DroneAgent × Nat :=
  if d.current_waypoint_index < d.waypoints.length then
    moveReach
      { d with position :=
          steppedPos d (d.waypoints.getD d.current_waypoint_index (0, 0)) }
      (d.waypoints.getD d.current_waypoint_index (0, 0)) gen n
  else (d, n)

/-- `DroneAgent.step`, threading the oracle slot counter `n` for
`_generate_patrol_waypoints` calls. -/
def DroneAgent.step (d : DroneAgent) (env : Option (List VehicleView))
    (gen : Nat → List Pos) (n : Nat) : DroneAgent × Nat :=
  let rc := (d.drain.lowBatteryCheck).rechargeCheck gen n
  (rc.1.processEnv env).moveToward gen rc.2

/-! ### Settling C3: battery bounds and RETURNING persistence -/

theorem lowBatteryCheck_battery (d : DroneAgent) :
    d.lowBatteryCheck.battery = d.battery := by
  unfold DroneAgent.lowBatteryCheck
  split <;> rfl

theorem lowBatteryCheck_returning (d : DroneAgent)
    (h : d.state = DroneState.RETURNING) : d.lowBatteryCheck = d := by
  unfold DroneAgent.lowBatteryCheck
  rw [if_neg (by simp [h])]

theorem rechargeCheck_battery_le (d : DroneAgent) (gen : Nat → List Pos)
    (n : Nat) (h : d.battery ≤ 100) :
    ((d.rechargeCheck gen n).1).battery ≤ 100 := by
  unfold DroneAgent.rechargeCheck
  split
  · norm_num
  · exact h

theorem rechargeCheck_off_base (d : DroneAgent) (gen : Nat → List Pos)
    (n : Nat) (h : d.position ≠ (0, 0)) :
    d.rechargeCheck gen n = (d, n) := by
  unfold DroneAgent.rechargeCheck
  rw [if_neg fun hc => h hc.2]

theorem processEnv_battery (d : DroneAgent)
    (env : Option (List VehicleView)) :
    (d.processEnv env).battery = d.battery := by
  cases env <;> rfl

theorem moveToward_battery (d : DroneAgent) (gen : Nat → List Pos)
    (n : Nat) : ((d.moveToward gen n).1).battery = d.battery := by
  unfold DroneAgent.moveToward moveReach waypointAdvance
  split
  · split
    · split <;> rfl
    · rfl
  · rfl

theorem moveToward_state (d : DroneAgent) (gen : Nat → List Pos)
    (n : Nat) : ((d.moveToward gen n).1).state = d.state := by
  unfold DroneAgent.moveToward moveReach waypointAdvance
  split
  · split
    · split <;> rfl
    · rfl
  · rfl

theorem monitorIncidents_noInc :
    ∀ (l : List VehicleView) (st : DroneState) (anoms : List Anomaly),
      (∀ vv ∈ l,
        ¬(vv.state = VehicleState.WAITING ∧ vv.waiting_time > 10)) →
      monitorIncidents l (st, anoms) = (st, anoms)
  | [], _, _, _ => rfl
  | vv :: rest, st, anoms, h => by
      unfold monitorIncidents
      rw [if_neg (h vv (by simp))]
      exact monitorIncidents_noInc rest st anoms
        fun a ha => h a (by simp [ha])

/-- A monitoring pass that emits nothing: no environment, or at most 3
proximate vehicles none of which is WAITING past 10 ticks. -/
def monitorSilent (d : DroneAgent) (env : Option (List VehicleView)) :
    Prop :=
  match env with
  | none => True
  | some vehicles =>
      (nearbyVehicles d.position vehicles).length ≤ 3 ∧
      ∀ vv ∈ nearbyVehicles d.position vehicles,
        ¬(vv.state = VehicleState.WAITING ∧ vv.waiting_time > 10)

theorem processEnv_state_silent (d : DroneAgent)
    (env : Option (List VehicleView)) (h : monitorSilent d env) :
    (d.processEnv env).state = d.state := by
  cases env with
  | none => rfl
  | some vs =>
      obtain ⟨h1, h2⟩ := h
      show (monitorFinish _ _
        (monitorIncidents _ (congPulse d _))).state = d.state
      rw [show congPulse d (nearbyVehicles d.position vs)
            = (d.state, d.detected_anomalies) from by
          unfold congPulse
          rw [if_neg (by omega)],
        monitorIncidents_noInc _ _ _ h2]
      rfl

/-- C3 amended: one drone step never lifts the battery above 100 (it
either drains it or resets it to exactly 100), and a RETURNING drone
away from the base whose monitoring pass emits nothing is still
RETURNING afterwards — the battery may, however, fall below 0, and an
anomaly-emitting monitoring pass resets a RETURNING drone to PATROLLING
(see the counterexample). -/
theorem C3_battery_cap_and_returning_persistence (d : DroneAgent)
    (env : Option (List VehicleView)) (gen : Nat → List Pos) (n : Nat)
    (hrate : 0 ≤ d.battery_drain_rate) :
    (d.battery ≤ 100 → ((d.step env gen n).1).battery ≤ 100) ∧
    (d.state = DroneState.RETURNING → d.position ≠ (0, 0) →
      monitorSilent d env →
      ((d.step env gen n).1).state = DroneState.RETURNING) := by
  constructor
  · intro hb
    unfold DroneAgent.step
    rw [moveToward_battery, processEnv_battery]
    apply rechargeCheck_battery_le
    rw [lowBatteryCheck_battery]
    show d.battery - d.battery_drain_rate ≤ 100
    linarith
  · intro hret hpos hsil
    unfold DroneAgent.step
    rw [lowBatteryCheck_returning d.drain hret,
      rechargeCheck_off_base d.drain gen n hpos]
    rw [moveToward_state, processEnv_state_silent d.drain env hsil]
    exact hret

/-- Witness for `C3_battery_cap_and_returning_persistence`: a concrete
low-battery RETURNING drone half way home stays RETURNING and under
the battery cap. -/
theorem C3_battery_cap_and_returning_persistence_witness :
    (({ DroneAgent.init "D-1" (3, 3) 5 none (fun _ => [(0, 0)]) with
        state := DroneState.RETURNING, battery := 15,
        waypoints := [(3, 3), (0, 0)] } : DroneAgent).battery ≤ 100 →
      ((({ DroneAgent.init "D-1" (3, 3) 5 none (fun _ => [(0, 0)]) with
          state := DroneState.RETURNING, battery := 15,
          waypoints := [(3, 3), (0, 0)] } : DroneAgent).step none
          (fun _ => [(0, 0)]) 1).1).battery ≤ 100) ∧
    (({ DroneAgent.init "D-1" (3, 3) 5 none (fun _ => [(0, 0)]) with
        state := DroneState.RETURNING, battery := 15,
        waypoints := [(3, 3), (0, 0)] } : DroneAgent).state
        = DroneState.RETURNING →
      ({ DroneAgent.init "D-1" (3, 3) 5 none (fun _ => [(0, 0)]) with
        state := DroneState.RETURNING, battery := 15,
        waypoints := [(3, 3), (0, 0)] } : DroneAgent).position ≠ (0, 0) →
      monitorSilent
        { DroneAgent.init "D-1" (3, 3) 5 none (fun _ => [(0, 0)]) with
          state := DroneState.RETURNING, battery := 15,
          waypoints := [(3, 3), (0, 0)] } none →
      ((({ DroneAgent.init "D-1" (3, 3) 5 none (fun _ => [(0, 0)]) with
          state := DroneState.RETURNING, battery := 15,
          waypoints := [(3, 3), (0, 0)] } : DroneAgent).step none
          (fun _ => [(0, 0)]) 1).1).state = DroneState.RETURNING) :=
  C3_battery_cap_and_returning_persistence _ none (fun _ => [(0, 0)]) 1
    (by norm_num [DroneAgent.init])

/-- A run of a single drone: constructed by `DroneAgent.__init__` and
stepped once per tick with the environments `envs` (the vehicle views
the controller would hand it) and the waypoint oracle `gen`. -/
def droneRun (start : Pos) (gsize : Int) (box : Option (Pos × Pos))
    (gen : Nat → List Pos) (envs : Nat → Option (List VehicleView)) :
    Nat → DroneAgent × Nat
  | 0 => (DroneAgent.init "D-1" start gsize box gen, 1)
  | k + 1 =>
      ((droneRun start gsize box gen envs k).1).step (envs k) gen
        (droneRun start gsize box gen envs k).2

/-- The battery half of C3 as frozen: along every admissible run the
battery stays within `[0, 100]`. -/
def claimC3bat : Prop :=
  ∀ (start : Pos) (gsize : Int) (box : Option (Pos × Pos))
    (gen : Nat → List Pos) (envs : Nat → Option (List VehicleView)),
    (∀ n, admissibleWaypointBase
      (box.getD ((0, 0), (gsize - 1, gsize - 1))) (gen n)) →
    ∀ k, 0 ≤ (droneRun start gsize box gen envs k).1.battery ∧
      (droneRun start gsize box gen envs k).1.battery ≤ 100

/-- The persistence half of C3 as frozen: once RETURNING, the drone is
never PATROLLING at a later tick unless its position was the base cell
somewhere in between. -/
def claimC3ret : Prop :=
  ∀ (start : Pos) (gsize : Int) (box : Option (Pos × Pos))
    (gen : Nat → List Pos) (envs : Nat → Option (List VehicleView)),
    (∀ n, admissibleWaypointBase
      (box.getD ((0, 0), (gsize - 1, gsize - 1))) (gen n)) →
    ∀ i j, i < j →
      (droneRun start gsize box gen envs i).1.state
        = DroneState.RETURNING →
      (∀ m, i ≤ m → m ≤ j →
        (droneRun start gsize box gen envs m).1.position ≠ (0, 0)) →
      (droneRun start gsize box gen envs j).1.state
        ≠ DroneState.PATROLLING

/-- A constant, admissible waypoint-oracle for a drone patrolling the
box `[(40,40), (49,49)]`: the four corners (identity shuffle) plus
three random interior cells that all landed on `(45,45)`. -/
def genC3 : Nat → List Pos :=
  fun _ => [(40,40), (49,40), (49,49), (40,49), (45,45), (45,45), (45,45)]

/-- Four moving vehicles sitting at the drone's tick-162 position. -/
def vvC3 (i : Nat) : VehicleView :=
  { id := toString i, position := (42, 41), destination := (0, 0),
    state := VehicleState.MOVING, waiting_time := 0,
    total_travel_time := 5, stops := 0 }

/-- The environment schedule of the C3 counterexample run: no vehicles
in sight except at tick 162, when four of them crowd the drone. -/
def envsC3 : Nat → Option (List VehicleView) :=
  fun k => if k = 161 then some [vvC3 1, vvC3 2, vvC3 3, vvC3 4] else none

/-- The C3 counterexample run: a drone starting at `(45,45)` on a 50×50
grid with patrol box `[(40,40), (49,49)]`. -/
def runC3 (k : Nat) : DroneAgent × Nat :=
  droneRun (45, 45) 50 (some ((40, 40), (49, 49))) genC3 envsC3 k

theorem genC3_admissible :
    ∀ n, admissibleWaypointBase
      ((some ((40, 40), (49, 49)) : Option (Pos × Pos)).getD
        ((0, 0), ((50 : Int) - 1, (50 : Int) - 1))) (genC3 n) := by
  intro n
  refine ⟨[(45,45), (45,45), (45,45)], by norm_num, by norm_num,
    by decide, ?_⟩
  show ([(40,40), (49,40), (49,49), (40,49), (45,45), (45,45), (45,45)]
      : List Pos).Perm
    ([((40 : Int), (40 : Int)), (49,40), (49,49), (40,49)]
      ++ [(45,45), (45,45), (45,45)])
  decide


/-- Step `j` further ticks from the state after tick `k`. -/
def stepN (gen : Nat → List Pos) (envs : Nat → Option (List VehicleView))
    (k : Nat) : Nat → DroneAgent × Nat → DroneAgent × Nat
  | 0, p => p
  | j + 1, p =>
      ((stepN gen envs k j p).1).step (envs (k + j)) gen
        (stepN gen envs k j p).2

theorem droneRun_add (start : Pos) (gsize : Int)
    (box : Option (Pos × Pos)) (gen : Nat → List Pos)
    (envs : Nat → Option (List VehicleView)) :
    ∀ (j k : Nat), droneRun start gsize box gen envs (k + j)
      = stepN gen envs k j (droneRun start gsize box gen envs k)
  | 0, _ => rfl
  | j + 1, k => by
      rw [stepN, ← droneRun_add start gsize box gen envs j k]
      rfl

/-- The state of the C3 counterexample run after tick 20. -/
def runC3cp20 : DroneAgent × Nat :=
  ({ id := "D-1", position := (46, 48), grid_size := 50,
     state := DroneState.PATROLLING,
     patrol_area := ((40, 40), (49, 49)), speed := 1,
     battery := 90, battery_drain_rate := 1/2,
     waypoints := [(40, 40),  (49, 40),  (49, 49),  (40, 49),  (45, 45),  (45, 45),  (45, 45),  (45, 45)],
     current_waypoint_index := 3,
     detected_anomalies := [],
     traffic_density_map := fun _ => (0 : ℚ) },
   1)
set_option maxRecDepth 4000 in
theorem runC3eq20 : runC3 20 = runC3cp20 := by
  rw [show runC3 20 = stepN genC3 envsC3 0 20 (runC3 0)
    from droneRun_add _ _ _ _ _ 20 0]
  with_unfolding_all rfl

/-- The state of the C3 counterexample run after tick 40. -/
def runC3cp40 : DroneAgent × Nat :=
  ({ id := "D-1", position := (46, 41), grid_size := 50,
     state := DroneState.PATROLLING,
     patrol_area := ((40, 40), (49, 49)), speed := 1,
     battery := 80, battery_drain_rate := 1/2,
     waypoints := [(40, 40),  (49, 40),  (49, 49),  (40, 49),  (45, 45),  (45, 45),  (45, 45),  (45, 45)],
     current_waypoint_index := 1,
     detected_anomalies := [],
     traffic_density_map := fun _ => (0 : ℚ) },
   2)
set_option maxRecDepth 4000 in
theorem runC3eq40 : runC3 40 = runC3cp40 := by
  rw [show runC3 40 = stepN genC3 envsC3 20 20 (runC3 20)
    from droneRun_add _ _ _ _ _ 20 20, runC3eq20]
  with_unfolding_all rfl

/-- The state of the C3 counterexample run after tick 60. -/
def runC3cp60 : DroneAgent × Nat :=
  ({ id := "D-1", position := (45, 45), grid_size := 50,
     state := DroneState.PATROLLING,
     patrol_area := ((40, 40), (49, 49)), speed := 1,
     battery := 70, battery_drain_rate := 1/2,
     waypoints := [(40, 40),  (49, 40),  (49, 49),  (40, 49),  (45, 45),  (45, 45),  (45, 45),  (45, 45)],
     current_waypoint_index := 6,
     detected_anomalies := [],
     traffic_density_map := fun _ => (0 : ℚ) },
   2)
set_option maxRecDepth 4000 in
theorem runC3eq60 : runC3 60 = runC3cp60 := by
  rw [show runC3 60 = stepN genC3 envsC3 40 20 (runC3 40)
    from droneRun_add _ _ _ _ _ 20 40, runC3eq40]
  with_unfolding_all rfl

/-- The state of the C3 counterexample run after tick 80. -/
def runC3cp80 : DroneAgent × Nat :=
  ({ id := "D-1", position := (48, 48), grid_size := 50,
     state := DroneState.PATROLLING,
     patrol_area := ((40, 40), (49, 49)), speed := 1,
     battery := 60, battery_drain_rate := 1/2,
     waypoints := [(40, 40),  (49, 40),  (49, 49),  (40, 49),  (45, 45),  (45, 45),  (45, 45),  (45, 45)],
     current_waypoint_index := 3,
     detected_anomalies := [],
     traffic_density_map := fun _ => (0 : ℚ) },
   3)
set_option maxRecDepth 4000 in
theorem runC3eq80 : runC3 80 = runC3cp80 := by
  rw [show runC3 80 = stepN genC3 envsC3 60 20 (runC3 60)
    from droneRun_add _ _ _ _ _ 20 60, runC3eq60]
  with_unfolding_all rfl

/-- The state of the C3 counterexample run after tick 100. -/
def runC3cp100 : DroneAgent × Nat :=
  ({ id := "D-1", position := (44, 41), grid_size := 50,
     state := DroneState.PATROLLING,
     patrol_area := ((40, 40), (49, 49)), speed := 1,
     battery := 50, battery_drain_rate := 1/2,
     waypoints := [(40, 40),  (49, 40),  (49, 49),  (40, 49),  (45, 45),  (45, 45),  (45, 45),  (45, 45)],
     current_waypoint_index := 1,
     detected_anomalies := [],
     traffic_density_map := fun _ => (0 : ℚ) },
   4)
set_option maxRecDepth 4000 in
theorem runC3eq100 : runC3 100 = runC3cp100 := by
  rw [show runC3 100 = stepN genC3 envsC3 80 20 (runC3 80)
    from droneRun_add _ _ _ _ _ 20 80, runC3eq80]
  with_unfolding_all rfl

/-- The state of the C3 counterexample run after tick 120. -/
def runC3cp120 : DroneAgent × Nat :=
  ({ id := "D-1", position := (43, 46), grid_size := 50,
     state := DroneState.PATROLLING,
     patrol_area := ((40, 40), (49, 49)), speed := 1,
     battery := 40, battery_drain_rate := 1/2,
     waypoints := [(40, 40),  (49, 40),  (49, 49),  (40, 49),  (45, 45),  (45, 45),  (45, 45),  (45, 45)],
     current_waypoint_index := 4,
     detected_anomalies := [],
     traffic_density_map := fun _ => (0 : ℚ) },
   4)
set_option maxRecDepth 4000 in
theorem runC3eq120 : runC3 120 = runC3cp120 := by
  rw [show runC3 120 = stepN genC3 envsC3 100 20 (runC3 100)
    from droneRun_add _ _ _ _ _ 20 100, runC3eq100]
  with_unfolding_all rfl

/-- The state of the C3 counterexample run after tick 140. -/
def runC3cp140 : DroneAgent × Nat :=
  ({ id := "D-1", position := (48, 46), grid_size := 50,
     state := DroneState.PATROLLING,
     patrol_area := ((40, 40), (49, 49)), speed := 1,
     battery := 30, battery_drain_rate := 1/2,
     waypoints := [(40, 40),  (49, 40),  (49, 49),  (40, 49),  (45, 45),  (45, 45),  (45, 45),  (45, 45)],
     current_waypoint_index := 2,
     detected_anomalies := [],
     traffic_density_map := fun _ => (0 : ℚ) },
   5)
set_option maxRecDepth 4000 in
theorem runC3eq140 : runC3 140 = runC3cp140 := by
  rw [show runC3 140 = stepN genC3 envsC3 120 20 (runC3 120)
    from droneRun_add _ _ _ _ _ 20 120, runC3eq120]
  with_unfolding_all rfl

/-- The state of the C3 counterexample run after tick 160. -/
def runC3cp160 : DroneAgent × Nat :=
  ({ id := "D-1", position := (42, 41), grid_size := 50,
     state := DroneState.PATROLLING,
     patrol_area := ((40, 40), (49, 49)), speed := 1,
     battery := 20, battery_drain_rate := 1/2,
     waypoints := [(40, 40),  (49, 40),  (49, 49),  (40, 49),  (45, 45),  (45, 45),  (45, 45),  (45, 45)],
     current_waypoint_index := 1,
     detected_anomalies := [],
     traffic_density_map := fun _ => (0 : ℚ) },
   6)
set_option maxRecDepth 4000 in
theorem runC3eq160 : runC3 160 = runC3cp160 := by
  rw [show runC3 160 = stepN genC3 envsC3 140 20 (runC3 140)
    from droneRun_add _ _ _ _ _ 20 140, runC3eq140]
  with_unfolding_all rfl

/-- The state of the C3 counterexample run after tick 161. -/
def runC3cp161 : DroneAgent × Nat :=
  ({ id := "D-1", position := (42, 41), grid_size := 50,
     state := DroneState.RETURNING,
     patrol_area := ((40, 40), (49, 49)), speed := 1,
     battery := 39/2, battery_drain_rate := 1/2,
     waypoints := [(42, 41),  (0, 0)],
     current_waypoint_index := 1,
     detected_anomalies := [],
     traffic_density_map := fun _ => (0 : ℚ) },
   6)
set_option maxRecDepth 4000 in
theorem runC3eq161 : runC3 161 = runC3cp161 := by
  rw [show runC3 161 = stepN genC3 envsC3 160 1 (runC3 160)
    from droneRun_add _ _ _ _ _ 1 160, runC3eq160]
  with_unfolding_all rfl

/-- The state of the C3 counterexample run after tick 162. -/
def runC3cp162 : DroneAgent × Nat :=
  ({ id := "D-1", position := (41, 40), grid_size := 50,
     state := DroneState.PATROLLING,
     patrol_area := ((40, 40), (49, 49)), speed := 1,
     battery := 19, battery_drain_rate := 1/2,
     waypoints := [(42, 41),  (0, 0)],
     current_waypoint_index := 1,
     detected_anomalies := [Anomaly.congestion (42, 41) 4 4],
     traffic_density_map := fun p => if p = ((41 : Int), (42 : Int)) then ((4 : Nat) : ℚ) else (0 : ℚ) },
   6)
set_option maxRecDepth 4000 in
theorem runC3eq162 : runC3 162 = runC3cp162 := by
  rw [show runC3 162 = stepN genC3 envsC3 161 1 (runC3 161)
    from droneRun_add _ _ _ _ _ 1 161, runC3eq161]
  with_unfolding_all rfl

/-- The state of the C3 counterexample run after tick 182. -/
def runC3cp182 : DroneAgent × Nat :=
  ({ id := "D-1", position := (22, 21), grid_size := 50,
     state := DroneState.RETURNING,
     patrol_area := ((40, 40), (49, 49)), speed := 1,
     battery := 9, battery_drain_rate := 1/2,
     waypoints := [(41, 40),  (0, 0)],
     current_waypoint_index := 1,
     detected_anomalies := [Anomaly.congestion (42, 41) 4 4],
     traffic_density_map := fun p => if p = ((41 : Int), (42 : Int)) then ((4 : Nat) : ℚ) else (0 : ℚ) },
   6)
set_option maxRecDepth 4000 in
theorem runC3eq182 : runC3 182 = runC3cp182 := by
  rw [show runC3 182 = stepN genC3 envsC3 162 20 (runC3 162)
    from droneRun_add _ _ _ _ _ 20 162, runC3eq162]
  with_unfolding_all rfl

/-- The state of the C3 counterexample run after tick 201. -/
def runC3cp201 : DroneAgent × Nat :=
  ({ id := "D-1", position := (3, 2), grid_size := 50,
     state := DroneState.RETURNING,
     patrol_area := ((40, 40), (49, 49)), speed := 1,
     battery := -1/2, battery_drain_rate := 1/2,
     waypoints := [(41, 40),  (0, 0)],
     current_waypoint_index := 1,
     detected_anomalies := [Anomaly.congestion (42, 41) 4 4],
     traffic_density_map := fun p => if p = ((41 : Int), (42 : Int)) then ((4 : Nat) : ℚ) else (0 : ℚ) },
   6)
set_option maxRecDepth 4000 in
theorem runC3eq201 : runC3 201 = runC3cp201 := by
  rw [show runC3 201 = stepN genC3 envsC3 182 19 (runC3 182)
    from droneRun_add _ _ _ _ _ 19 182, runC3eq182]
  with_unfolding_all rfl

/-- C3 fails on the code twice over, along the admissible `runC3`:
the drone turns RETURNING at tick 161 (battery 19.5 at `(42,41)`), is
PATROLLING again at tick 162 away from base (four proximate vehicles
make `_monitor_traffic` end its REPORTING pulse on PATROLLING,
whatever the previous state), and since the base stays out of reach
until the battery is exhausted, the battery is -0.5 at tick 201. -/
theorem C3_counterexample : ¬ claimC3bat ∧ ¬ claimC3ret := by
  constructor
  · intro h
    have hb := (h (45, 45) 50 (some ((40, 40), (49, 49))) genC3 envsC3
      genC3_admissible 201).1
    rw [show droneRun (45, 45) 50 (some ((40, 40), (49, 49))) genC3 envsC3
        201 = runC3cp201 from runC3eq201] at hb
    revert hb
    with_unfolding_all decide
  · intro h
    have hret := h (45, 45) 50 (some ((40, 40), (49, 49))) genC3 envsC3
      genC3_admissible 161 162 (by omega)
      (by rw [show droneRun (45, 45) 50 (some ((40, 40), (49, 49))) genC3
            envsC3 161 = runC3cp161 from runC3eq161]
          with_unfolding_all decide)
      (fun m h1 h2 => by
        interval_cases m
        · rw [show droneRun (45, 45) 50 (some ((40, 40), (49, 49))) genC3
              envsC3 161 = runC3cp161 from runC3eq161]
          with_unfolding_all decide
        · rw [show droneRun (45, 45) 50 (some ((40, 40), (49, 49))) genC3
              envsC3 162 = runC3cp162 from runC3eq162]
          with_unfolding_all decide)
    apply hret
    rw [show droneRun (45, 45) 50 (some ((40, 40), (49, 49))) genC3 envsC3
        162 = runC3cp162 from runC3eq162]
    with_unfolding_all decide

/-! ## Message bus (`core/comms.py`) -/

/-- Association-list update with Python-dict semantics: overwrite the
existing key or append a new binding. -/
def alistSet {β : Type} :
    List (String × β) → String → β → List (String × β)
  | [], k, v => [(k, v)]
  | (k', v') :: rest, k, v =>
      if k' = k then (k, v) :: rest else (k', v') :: alistSet rest k v

/-- Association-list read with `defaultdict` semantics: a missing key
reads as the default. -/
def alistGetD {β : Type} : List (String × β) → String → β → β
  | [], _, d => d
  | (k', v') :: rest, k, d => if k' = k then v' else alistGetD rest k d

/-- `MessageBus` (`core/comms.py`): per-topic subscriber lists (a
`defaultdict(list)`) and per-topic bounded message history (a
`defaultdict` of `deque(maxlen=max_history)`).  Callbacks are opaque
values of type `α`; `publish` invokes them for side effects the model
does not track (nothing in the simulation subscribes). -/
structure MessageBus (α μ : Type) where
  subscribers : List (String × List α)
  messages : List (String × List μ)
  max_history : Nat

/-- `MessageBus.__init__` (default `max_history=100`). -/
def MessageBus.init (α μ : Type) (max_history : Nat) : MessageBus α μ :=
  { subscribers := [], messages := [], max_history := max_history }

/-- `MessageBus.publish`: append to the topic's history, evicting the
oldest entries beyond `max_history` as `deque(maxlen=...)` does. -/
def MessageBus.publish {α μ : Type} (b : MessageBus α μ) (topic : String)
    (m : μ) : MessageBus α μ :=
  let upd := alistGetD b.messages topic [] ++ [m]
  let trimmed := if upd.length > b.max_history then
    upd.drop (upd.length - b.max_history) else upd
  { b with messages := alistSet b.messages topic trimmed }

/-- `MessageBus.subscribe`: append the callback and hand back
`len(subscribers[topic]) - 1`, a positional index. -/
def MessageBus.subscribe {α μ : Type} (b : MessageBus α μ)
    (topic : String) (callback : α) : MessageBus α μ × Nat :=
  let cur := alistGetD b.subscribers topic []
  ({ b with subscribers := alistSet b.subscribers topic (cur ++ [callback]) },
   cur.length)

/-- `MessageBus.unsubscribe`: pop the callback at the positional index
when the topic exists and the index is in range, else do nothing. -/
def MessageBus.unsubscribe {α μ : Type} (b : MessageBus α μ)
    (topic : String) (subscription_id : Nat) : MessageBus α μ :=
  match b.subscribers.lookup topic with
  | none => b
  | some lst =>
      if subscription_id < lst.length then
        { b with subscribers :=
            alistSet b.subscribers topic (lst.eraseIdx subscription_id) }
      else b

/-- `MessageBus.get_messages` (`count=None` returns the whole retained
history; `count=c` the slice `messages[-c:]`). -/
def MessageBus.get_messages {α μ : Type} (b : MessageBus α μ)
    (topic : String) (count : Option Nat) : List μ :=
  match b.messages.lookup topic with
  | none => []
  | some msgs =>
      match count with
      | none => msgs
      | some c => if c = 0 then msgs else msgs.drop (msgs.length - c)

/-- `MessageBus.clear`: empty the history of every topic. -/
def MessageBus.clear {α μ : Type} (b : MessageBus α μ) : MessageBus α μ :=
  { b with messages := b.messages.map fun p => (p.1, []) }

/-! ### Settling C2: positional unsubscribe handles -/

/-- A bus with three subscribers 10, 11, 12 ("A", "B", "C") on topic
`"t"`, holding handles 0, 1 and 2. -/
def busABC : MessageBus Nat Nat :=
  ((((MessageBus.init Nat Nat 100).subscribe "t" 10).1.subscribe
    "t" 11).1.subscribe "t" 12).1

/-- C2 fails on the code, which the spec itself flags as the defect to
fix: handles are positional indices.  The handles handed out for A, B,
C are 0, 1, 2; after `unsubscribe("t", 0)` removes A, C's handle 2 is
out of range and removes nothing (C stays subscribed), while B's handle
1 now removes C's callback instead of B's.  Only the no-op half of the
claim holds: an out-of-range handle or an unknown topic changes
nothing. -/
theorem C2_unsubscribe_divergence :
    (((MessageBus.init Nat Nat 100).subscribe "t" 10).2 = 0 ∧
      ((((MessageBus.init Nat Nat 100).subscribe "t" 10).1.subscribe
        "t" 11).2 = 1) ∧
      busABC.subscribers = [("t", [10, 11, 12])]) ∧
    alistGetD (((busABC.unsubscribe "t" 0).unsubscribe "t" 2).subscribers)
        "t" [] = [11, 12] ∧
    alistGetD (((busABC.unsubscribe "t" 0).unsubscribe "t" 1).subscribers)
        "t" [] = [11] ∧
    busABC.unsubscribe "t" 5 = busABC ∧
    busABC.unsubscribe "u" 0 = busABC := by
  refine ⟨⟨rfl, rfl, rfl⟩, rfl, rfl, rfl, rfl⟩

/-! ## Grid (`core/grid.py`) -/

/-- One occupancy entry appended by `Grid.add_agent`. -/
structure AgentInfo where
  id : String
  type : String
  state : String
deriving DecidableEq, Repr

/-- `Grid` (`core/grid.py`): the cell array is keyed `(y, x)` like the
source's `self.grid[y, x]`; `agents` is the id → entry dict. -/
structure Grid where
  size : Int
  grid : Pos → List AgentInfo
  agents : List (String × (Pos × String × String))

/-- `Grid.__init__`: every cell starts as an empty list. -/
def Grid.init (size : Int) : Grid :=
  { size := size, grid := fun _ => [], agents := [] }

/-- `Grid.add_agent`: bounds-checked; in range it appends one occupancy
entry to the cell and upserts the id → entry dict, out of range it does
nothing. -/
def Grid.add_agent (g : Grid) (agent_id : String) (position : Pos)
    (agent_type state : String) : Grid :=
  if 0 ≤ position.1 ∧ position.1 < g.size ∧ 0 ≤ position.2 ∧
      position.2 < g.size then
    { g with
      grid := fun p =>
        if p = (position.2, position.1) then
          g.grid p ++ [⟨agent_id, agent_type, state⟩]
        else g.grid p,
      agents := alistSet g.agents agent_id (position, agent_type, state) }
  else g

/-- `Grid.get_agents_at`: bounds-checked read, empty off the grid. -/
def Grid.get_agents_at (g : Grid) (position : Pos) : List AgentInfo :=
  if 0 ≤ position.1 ∧ position.1 < g.size ∧ 0 ≤ position.2 ∧
      position.2 < g.size then
    g.grid (position.2, position.1)
  else []

/-- `Grid.clear`. -/
def Grid.clear (g : Grid) : Grid :=
  { g with grid := fun _ => [], agents := [] }

/-- C10: `add_agent` at any position with `x < 0`, `x ≥ size`, `y < 0`
or `y ≥ size` returns the grid completely unchanged — no cell list is
touched, the id → entry dict gains nothing, and no error is raised. -/
theorem C10_add_agent_out_of_bounds (g : Grid) (agent_id : String)
    (position : Pos) (agent_type state : String)
    (h : position.1 < 0 ∨ position.1 ≥ g.size ∨ position.2 < 0 ∨
      position.2 ≥ g.size) :
    g.add_agent agent_id position agent_type state = g := by
  unfold Grid.add_agent
  rw [if_neg]
  intro hc
  rcases h with h | h | h | h <;> omega

/-- Witness for `C10_add_agent_out_of_bounds` on a 2×2 grid at `(5,0)`. -/
theorem C10_add_agent_out_of_bounds_witness :
    (Grid.init 2).add_agent "V-1" (5, 0) "vehicle" "MOVING"
      = Grid.init 2 :=
  C10_add_agent_out_of_bounds (Grid.init 2) "V-1" (5, 0) "vehicle"
    "MOVING" (by decide)

/-! ## Simulation controller (`core/controller.py`) -/

/-- `TrafficLightAgent.get_state` (`direction` as `1` for the string
`'East-West'`, `0` for `'North-South'`). -/
def TrafficLightAgent.get_state (l : TrafficLightAgent) : LightView :=
  { id := l.id, position := l.position, state := l.state,
    direction := l.direction, timer := l.timer,
    congestion_level := l.congestion_level }

/-- `DroneAgent.get_state` (the battery percentage string carried as
its exact rational value). -/
structure DroneView where
  id : String
  position : Pos
  state : DroneState
  battery : ℚ
  anomalies_detected : Nat
  current_waypoint : Option Pos
deriving DecidableEq, Repr

def DroneAgent.get_state (d : DroneAgent) : DroneView :=
  { id := d.id, position := d.position, state := d.state,
    battery := d.battery,
    anomalies_detected := d.detected_anomalies.length,
    current_waypoint :=
      if d.current_waypoint_index < d.waypoints.length then
        some (d.waypoints.getD d.current_waypoint_index (0, 0))
      else none }

/-- A message published on the bus by the controller. -/
inductive BusMsg where
  | lightUpdate (id : String) (state : LightView)
  | vehicleUpdate (id : String) (state : VehicleView)
  | anomaly (a : Anomaly)
  | droneUpdate (id : String) (state : DroneView)
deriving DecidableEq, Repr

/-- The Python string of each agent state, as stored into the grid. -/
def TrafficLightState.pyStr : TrafficLightState → String
  | .RED => "RED"
  | .YELLOW => "YELLOW"
  | .GREEN => "GREEN"

def VehicleState.pyStr : VehicleState → String
  | .MOVING => "MOVING"
  | .WAITING => "WAITING"
  | .REROUTING => "REROUTING"
  | .ARRIVED => "ARRIVED"

def DroneState.pyStr : DroneState → String
  | .PATROLLING => "PATROLLING"
  | .MONITORING => "MONITORING"
  | .REPORTING => "REPORTING"
  | .RETURNING => "RETURNING"

/-- The running statistics dictionary. -/
structure Stats where
  vehicles_arrived : Nat
  total_waiting_time : Nat
  total_travel_time : Nat
  anomalies_detected : Nat
  congestion_events : Nat
deriving DecidableEq, Repr

/-- State of `SimulationController`.  `drone_rng` models the state of
the global `random` module as consumed by each drone's waypoint
regenerations: the next unused oracle slot per drone. -/
structure SimulationController where
  grid : Grid
  message_bus : MessageBus Unit BusMsg
  verbose : Bool
  current_step : Nat
  traffic_lights : List TrafficLightAgent
  vehicles : List VehicleAgent
  drones : List DroneAgent
  drone_rng : List Nat
  stats : Stats

/-- `SimulationController._get_environment_data_for_light`: counts of
vehicles within Manhattan distance 2, split by travel axis (the source
increments two counters in one loop; filtering the roster twice yields
the same counts). -/
def envForLight (vehicles : List VehicleAgent) (light : TrafficLightAgent) :
    LightEnv :=
  { vehicles_ns := (vehicles.filter fun v =>
      decide ((light.position.1 - v.position.1).natAbs
          + (light.position.2 - v.position.2).natAbs ≤ 2)
        && v.is_moving_north_south).length,
    vehicles_ew := (vehicles.filter fun v =>
      decide ((light.position.1 - v.position.1).natAbs
          + (light.position.2 - v.position.2).natAbs ≤ 2)
        && !v.is_moving_north_south).length }

/-- `SimulationController._get_environment_data_for_vehicle`: the
states of lights at Manhattan distance ≤ 1, and one congestion area per
`'congestion'`-typed message retained on the anomaly topic. -/
def envForVehicle (lights : List TrafficLightAgent)
    (bus : MessageBus Unit BusMsg) (v : VehicleAgent) : VehicleEnv :=
  { traffic_lights := (lights.filter fun l =>
      (l.position.1 - v.position.1).natAbs
        + (l.position.2 - v.position.2).natAbs ≤ 1).map
      TrafficLightAgent.get_state,
    congestion := (bus.get_messages "anomaly_detected" none).filterMap
      fun m =>
        match m with
        | BusMsg.anomaly (Anomaly.congestion pos _ sev) =>
            some { position := pos, level := sev }
        | _ => none }

/-- `SimulationController._get_environment_data_for_drone`: the states
of all non-ARRIVED vehicles. -/
def envForDrone (vehicles : List VehicleAgent) : List VehicleView :=
  (vehicles.filter fun v => v.state ≠ VehicleState.ARRIVED).map
    VehicleAgent.get_state

/-- `SimulationController._update_traffic_lights`. -/
def updateLightsLoop (vehicles : List VehicleAgent) :
    List TrafficLightAgent → MessageBus Unit BusMsg →
      List TrafficLightAgent × MessageBus Unit BusMsg
  | [], bus => ([], bus)
  | l :: rest, bus =>
      let l1 := l.step (some (envForLight vehicles l))
      let res := updateLightsLoop vehicles rest
        (bus.publish "traffic_light_update"
          (BusMsg.lightUpdate l1.id l1.get_state))
      (l1 :: res.1, res.2)

/-- `SimulationController._update_vehicles`: ARRIVED vehicles are
skipped entirely (no step, no publish).  The third component is a ghost
record of the environment views handed to the stepped vehicles, in
roster order — it does not influence the computation. -/
def updateVehiclesLoop (lights : List TrafficLightAgent)
    (vr : Nat → VRand) (i : Nat) :
    List VehicleAgent → MessageBus Unit BusMsg →
      List VehicleAgent × MessageBus Unit BusMsg × List VehicleEnv
  | [], bus => ([], bus, [])
  | v :: rest, bus =>
      if v.state = VehicleState.ARRIVED then
        let res := updateVehiclesLoop lights vr (i + 1) rest bus
        (v :: res.1, res.2.1, res.2.2)
      else
        let e := envForVehicle lights bus v
        let v1 := v.step (some e) (vr i)
        let res := updateVehiclesLoop lights vr (i + 1) rest
          (bus.publish "vehicle_update"
            (BusMsg.vehicleUpdate v1.id v1.get_state))
        (v1 :: res.1, res.2.1, e :: res.2.2)

/-- Publishing a drone's drained anomaly queue, in order. -/
def publishAnomalies :
    MessageBus Unit BusMsg → List Anomaly → MessageBus Unit BusMsg
  | bus, [] => bus
  | bus, a :: rest =>
      publishAnomalies (bus.publish "anomaly_detected" (BusMsg.anomaly a))
        rest

/-- `SimulationController._update_drones`: step, publish and drain the
anomaly queue, publish the drone state. -/
def updateDronesLoop (vehicles : List VehicleAgent)
    (gens : Nat → Nat → List Pos) (i : Nat) :
    List DroneAgent → List Nat → MessageBus Unit BusMsg →
      List DroneAgent × List Nat × MessageBus Unit BusMsg
  | [], _, bus => ([], [], bus)
  | d :: rest, ns, bus =>
      let res := d.step (some (envForDrone vehicles)) (gens i) (ns.headD 0)
      let d1 := { res.1 with detected_anomalies := [] }
      let bus2 := (publishAnomalies bus res.1.detected_anomalies).publish
        "drone_update" (BusMsg.droneUpdate d1.id d1.get_state)
      let next := updateDronesLoop vehicles gens (i + 1) rest ns.tail bus2
      (d1 :: next.1, res.2 :: next.2.1, next.2.2)

/-- `SimulationController._process_communications`: tally the drained
anomaly messages into the running counters, then clear the whole bus. -/
def processComms (bus : MessageBus Unit BusMsg) (stats : Stats) :
    MessageBus Unit BusMsg × Stats :=
  let msgs := bus.get_messages "anomaly_detected" none
  let congCount := (msgs.filter fun m =>
    match m with
    | BusMsg.anomaly (Anomaly.congestion _ _ _) => true
    | _ => false).length
  let incCount := (msgs.filter fun m =>
    match m with
    | BusMsg.anomaly (Anomaly.incident _ _ _) => true
    | _ => false).length
  (bus.clear,
   { stats with
     congestion_events := stats.congestion_events + congCount,
     anomalies_detected := stats.anomalies_detected + incCount })

/-- `SimulationController._update_grid`. -/
def rebuildGrid (g : Grid) (lights : List TrafficLightAgent)
    (vehicles : List VehicleAgent) (drones : List DroneAgent) : Grid :=
  let g1 := lights.foldl (fun g l =>
    g.add_agent l.id l.position "traffic_light" l.state.pyStr) g.clear
  let g2 := vehicles.foldl (fun g v =>
    if v.state ≠ VehicleState.ARRIVED then
      g.add_agent v.id v.position "vehicle" v.state.pyStr
    else g) g1
  drones.foldl (fun g d =>
    g.add_agent d.id d.position "drone" d.state.pyStr) g2

/-- `SimulationController._update_statistics`. -/
def updateStatistics (stats : Stats) (vehicles : List VehicleAgent) :
    Stats :=
  { stats with
    vehicles_arrived :=
      (vehicles.filter fun v => v.state = VehicleState.ARRIVED).length,
    total_waiting_time := (vehicles.map (·.waiting_time)).sum,
    total_travel_time := (vehicles.map (·.total_travel_time)).sum }

/-- The light phase of one tick. -/
def stageLights (c : SimulationController) :
    List TrafficLightAgent × MessageBus Unit BusMsg :=
  updateLightsLoop c.vehicles c.traffic_lights c.message_bus

/-- The vehicle phase of one tick (after the light phase). -/
def stageVehicles (c : SimulationController) (vr : Nat → VRand) :
    List VehicleAgent × MessageBus Unit BusMsg × List VehicleEnv :=
  updateVehiclesLoop (stageLights c).1 vr 0 c.vehicles (stageLights c).2

/-- The drone phase of one tick (after the vehicle phase). -/
def stageDrones (c : SimulationController) (vr : Nat → VRand)
    (gens : Nat → Nat → List Pos) :
    List DroneAgent × List Nat × MessageBus Unit BusMsg :=
  updateDronesLoop (stageVehicles c vr).1 gens 0 c.drones c.drone_rng
    (stageVehicles c vr).2.1

/-- `SimulationController.step`: lights → vehicles → drones →
communications → grid → statistics. -/
def SimulationController.step (c : SimulationController)
    (vr : Nat → VRand) (gens : Nat → Nat → List Pos) :
    SimulationController :=
  let pc := processComms (stageDrones c vr gens).2.2 c.stats
  { c with
    current_step := c.current_step + 1,
    traffic_lights := (stageLights c).1,
    vehicles := (stageVehicles c vr).1,
    drones := (stageDrones c vr gens).1,
    drone_rng := (stageDrones c vr gens).2.1,
    message_bus := pc.1,
    stats := updateStatistics pc.2 (stageVehicles c vr).1,
    grid := rebuildGrid c.grid (stageLights c).1 (stageVehicles c vr).1
      (stageDrones c vr gens).1 }

/-- `range(start, stop, step)` over Python ints (`step ≥ 1` here; the
fuel only bounds iterations so the recursion is structural and is taken
large enough never to bind). -/
def intRange (start stop step : Int) (fuel : Nat) : List Int :=
  match fuel with
  | 0 => []
  | f + 1 =>
      if start < stop then start :: intRange (start + step) stop step f
      else []

/-- `SimulationController._create_traffic_lights`: lights at every
grid point of the interval lattice, numbered in creation order, with
the `initial_state` oracle standing for `random.choice`
(`grid_size // 3` agrees with `Int` division on the non-negative sizes
used). -/
def create_traffic_lights (grid_size : Int)
    (lightInit : Nat → TrafficLightState) : List TrafficLightAgent :=
  let interval := max 1 (grid_size / 3)
  let xs := intRange interval grid_size interval grid_size.toNat
  let pairs := xs.flatMap fun x => xs.map fun y => ((x, y) : Pos)
  pairs.enum.map fun p =>
    let i := p.1
    { id := s!"TL-{i + 1}", position := p.2, state := lightInit p.1,
      timer := 0, red_duration := 30, yellow_duration := 5,
      green_duration := 30, vehicles_passed := 0, congestion_level := 0,
      direction := 0 }

/-- `SimulationController._create_vehicles`: the oracle `vo` supplies,
per vehicle, the random start and the destination the retry loop
settled on; `random.randint(0, grid_size - 1)` raises `ValueError` on
an empty range, modelled as the error case. -/
def create_vehicles (num_vehicles : Nat) (grid_size : Int)
    (vo : Nat → Pos × Pos) : Except String (List VehicleAgent) :=
  if num_vehicles = 0 then .ok []
  else if grid_size < 1 then .error "ValueError"
  else .ok ((List.range num_vehicles).map fun i =>
    VehicleAgent.init s!"V-{i + 1}" (vo i).1 (vo i).2 grid_size)

/-- The quadrant patrol box assigned to drone `i` in
`_create_drones`. -/
def quadrantBox (i : Nat) (grid_size : Int) : Pos × Pos :=
  let q := i % 4
  ((if q = 0 ∨ q = 2 then 0 else grid_size / 2,
    if q = 0 ∨ q = 1 then 0 else grid_size / 2),
   (if q = 0 ∨ q = 2 then grid_size / 2 - 1 else grid_size - 1,
    if q = 0 ∨ q = 1 then grid_size / 2 - 1 else grid_size - 1))

/-- `SimulationController._create_drones` (`dro` supplies the random
start cells, `gens i` the waypoint oracle of drone `i`). -/
def create_drones (num_drones : Nat) (grid_size : Int) (dro : Nat → Pos)
    (gens : Nat → Nat → List Pos) : Except String (List DroneAgent) :=
  if num_drones = 0 then .ok []
  else if grid_size < 1 then .error "ValueError"
  else .ok ((List.range num_drones).map fun i =>
    DroneAgent.init s!"D-{i + 1}" (dro i) grid_size
      (some (quadrantBox i grid_size)) (gens i))

/-- `SimulationController.__init__`: notably, it performs no
validation of its own — the only construction-time failures are the
`ValueError`s `random.randint` raises on an empty range. -/
def SimulationController.init (grid_size : Int)
    (num_vehicles num_drones : Nat) (verbose : Bool)
    (lightInit : Nat → TrafficLightState) (vo : Nat → Pos × Pos)
    (dro : Nat → Pos) (gens : Nat → Nat → List Pos) :
    Except String SimulationController :=
  match create_vehicles num_vehicles grid_size vo with
  | .error e => .error e
  | .ok vehicles =>
      match create_drones num_drones grid_size dro gens with
      | .error e => .error e
      | .ok drones =>
          .ok { grid := Grid.init grid_size,
                message_bus := MessageBus.init Unit BusMsg 100,
                verbose := verbose, current_step := 0,
                traffic_lights := create_traffic_lights grid_size lightInit,
                vehicles := vehicles, drones := drones,
                drone_rng := List.replicate num_drones 1,
                stats := ⟨0, 0, 0, 0, 0⟩ }

/-- The arithmetic of `print_stats`' arrival-percentage line, which
divides by `len(self.vehicles)` before any emptiness guard: with an
empty roster Python raises `ZeroDivisionError`, modelled as the error
case. -/
def SimulationController.print_stats_arrival_percent
    (c : SimulationController) : Except String ℚ :=
  if c.vehicles.length = 0 then .error "ZeroDivisionError"
  else .ok ((c.stats.vehicles_arrived : ℚ) / (c.vehicles.length : ℚ) * 100)

/-! ### Settling C9: construction-time validation -/

/-- A controller constructed with a 5×5 grid, zero vehicles and two
drones. -/
def c9zeroRoster : Except String SimulationController :=
  SimulationController.init 5 0 2 false (fun _ => TrafficLightState.RED)
    (fun _ => ((0, 0), (1, 0))) (fun _ => (0, 0)) (fun _ _ => [(0, 0)])

/-- A controller constructed with a zero-size grid, zero vehicles and
zero drones. -/
def c9zeroGrid : Except String SimulationController :=
  SimulationController.init 0 0 0 false (fun _ => TrafficLightState.RED)
    (fun _ => ((0, 0), (1, 0))) (fun _ => (0, 0)) (fun _ _ => [(0, 0)])

/-- C9 evaluated at the failing inputs: construction with a zero
vehicle roster (and even with a zero-size grid, if the roster and the
drone fleet are empty too) succeeds — nothing is rejected — and
`print_stats` then divides `vehicles_arrived` by the roster size 0,
raising `ZeroDivisionError` at reporting time. -/
theorem C9_no_construction_validation :
    c9zeroRoster.isOk = true ∧
    c9zeroRoster.map SimulationController.print_stats_arrival_percent
      = .ok (.error "ZeroDivisionError") ∧
    c9zeroGrid.isOk = true ∧
    c9zeroGrid.map SimulationController.print_stats_arrival_percent
      = .ok (.error "ZeroDivisionError") :=
  ⟨rfl, rfl, rfl, rfl⟩

/-! ### Settling C1: what congestion data vehicles actually see -/

theorem lookup_alistSet_ne {β : Type} (t k : String) (v : β)
    (h : t ≠ k) :
    ∀ l : List (String × β), (alistSet l t v).lookup k = l.lookup k
  | [] => by
      show List.lookup k [(t, v)] = none
      simp [List.lookup, beq_eq_false_iff_ne.mpr fun hc => h hc.symm]
  | (k', v') :: rest => by
      unfold alistSet
      by_cases hk : k' = t
      · subst hk
        rw [if_pos rfl]
        show List.lookup k ((k', v) :: rest) = List.lookup k ((k', v') :: rest)
        simp [List.lookup, beq_eq_false_iff_ne.mpr fun hc => h hc.symm]
      · rw [if_neg hk]
        show List.lookup k ((k', v') :: alistSet rest t v)
          = List.lookup k ((k', v') :: rest)
        simp only [List.lookup]
        cases hbeq : (k == k') <;>
          simp [hbeq, lookup_alistSet_ne t k v h rest]

theorem get_messages_publish_ne {α μ : Type} (b : MessageBus α μ)
    (t : String) (m : μ) (k : String) (h : t ≠ k) :
    (b.publish t m).get_messages k none = b.get_messages k none := by
  unfold MessageBus.publish MessageBus.get_messages
  rw [lookup_alistSet_ne t k _ h]

theorem lookup_mem {β : Type} :
    ∀ (l : List (String × β)) (k : String) (v : β),
      l.lookup k = some v → (k, v) ∈ l
  | [], k, v, h => by simp [List.lookup] at h
  | (k', v') :: rest, k, v, h => by
      rw [List.lookup] at h
      cases hbeq : (k == k') with
      | true =>
          simp only [hbeq] at h
          cases h
          have hk : k = k' := beq_iff_eq.1 hbeq
          subst hk
          exact List.mem_cons_self _ _
      | false =>
          simp only [hbeq] at h
          exact List.mem_cons_of_mem _ (lookup_mem rest k v h)

/-- All topic histories empty (what `clear` establishes and what holds
at construction). -/
def busAllEmpty {α μ : Type} (b : MessageBus α μ) : Prop :=
  ∀ p ∈ b.messages, p.2 = ([] : List μ)

theorem get_messages_of_busAllEmpty {α μ : Type} (b : MessageBus α μ)
    (h : busAllEmpty b) (k : String) : b.get_messages k none = [] := by
  unfold MessageBus.get_messages
  cases hl : b.messages.lookup k with
  | none => rfl
  | some msgs => exact h (k, msgs) (lookup_mem b.messages k msgs hl)

theorem updateLightsLoop_anomaly (vehicles : List VehicleAgent) :
    ∀ (ls : List TrafficLightAgent) (bus : MessageBus Unit BusMsg),
      ((updateLightsLoop vehicles ls bus).2).get_messages
          "anomaly_detected" none
        = bus.get_messages "anomaly_detected" none
  | [], _ => rfl
  | l :: rest, bus => by
      show ((updateLightsLoop vehicles rest
          (bus.publish "traffic_light_update" _)).2).get_messages
          "anomaly_detected" none = _
      rw [updateLightsLoop_anomaly vehicles rest,
        get_messages_publish_ne _ _ _ _ (by decide)]

theorem updateVehiclesLoop_envs_congestion
    (lights : List TrafficLightAgent) (vr : Nat → VRand) :
    ∀ (i : Nat) (vs : List VehicleAgent) (bus : MessageBus Unit BusMsg),
      bus.get_messages "anomaly_detected" none = [] →
      ∀ e ∈ (updateVehiclesLoop lights vr i vs bus).2.2, e.congestion = []
  | _, [], _, _, _, he => by simp [updateVehiclesLoop] at he
  | i, v :: rest, bus, h, e, he => by
      by_cases harr : v.state = VehicleState.ARRIVED
      · rw [show (updateVehiclesLoop lights vr i (v :: rest) bus).2.2
            = (updateVehiclesLoop lights vr (i + 1) rest bus).2.2 from by
          rw [updateVehiclesLoop, if_pos harr]] at he
        exact updateVehiclesLoop_envs_congestion lights vr (i + 1) rest
          bus h e he
      · rw [show (updateVehiclesLoop lights vr i (v :: rest) bus).2.2
            = envForVehicle lights bus v
              :: (updateVehiclesLoop lights vr (i + 1) rest
                (bus.publish "vehicle_update"
                  (BusMsg.vehicleUpdate
                    (v.step (some (envForVehicle lights bus v)) (vr i)).id
                    (v.step (some (envForVehicle lights bus v))
                      (vr i)).get_state))).2.2 from by
          rw [updateVehiclesLoop, if_neg harr]] at he
        rcases List.mem_cons.1 he with rfl | he'
        · show (bus.get_messages "anomaly_detected" none).filterMap _ = []
          rw [h]
          rfl
        · exact updateVehiclesLoop_envs_congestion lights vr (i + 1) rest
            _ (by rw [get_messages_publish_ne _ _ _ _ (by decide), h])
            e he'

/-- The congestion areas `_get_environment_data_for_vehicle` builds
from a list of anomaly-topic messages. -/
def congestionOf (msgs : List BusMsg) : List CongestionArea :=
  msgs.filterMap fun m =>
    match m with
    | BusMsg.anomaly (Anomaly.congestion pos _ sev) =>
        some { position := pos, level := sev }
    | _ => none

/-- The anomaly-topic messages `_process_communications` drains during
a tick starting from `c`. -/
def drainedAnomalyMsgs (c : SimulationController) (vr : Nat → VRand)
    (gens : Nat → Nat → List Pos) : List BusMsg :=
  ((stageDrones c vr gens).2.2).get_messages "anomaly_detected" none

/-- The environment views handed to the stepped (non-ARRIVED) vehicles
during a tick starting from `c`, in roster order. -/
def vehiclePhaseEnvs (c : SimulationController) (vr : Nat → VRand) :
    List VehicleEnv :=
  (stageVehicles c vr).2.2

/-- The claim C1 as frozen: in the tick after `c.step` (tick t), every
stepped vehicle's view carries exactly the congestion anomalies drained
at the end of the previous tick. -/
def claimC1 : Prop :=
  ∀ (c : SimulationController) (vr vr2 : Nat → VRand)
    (gens : Nat → Nat → List Pos),
    ∀ e ∈ vehiclePhaseEnvs (c.step vr gens) vr2,
      e.congestion = congestionOf (drainedAnomalyMsgs c vr gens)

/-- C1 amended: after every tick the whole bus history is empty (the
global `clear` runs after the drain and nothing publishes later in the
tick), and consequently, in any run, every environment view handed to a
vehicle has an empty congestion list — the anomalies drained in tick
t-1 never reach the vehicles of tick t. -/
theorem C1_congestion_view_always_empty (c : SimulationController)
    (vr : Nat → VRand) (gens : Nat → Nat → List Pos) :
    busAllEmpty (c.step vr gens).message_bus ∧
    (busAllEmpty c.message_bus →
      ∀ e ∈ vehiclePhaseEnvs c vr, e.congestion = []) := by
  constructor
  · intro p hp
    have : p ∈ ((stageDrones c vr gens).2.2).messages.map
        fun q => (q.1, ([] : List BusMsg)) := hp
    rw [List.mem_map] at this
    obtain ⟨q, _, hq⟩ := this
    rw [← hq]
  · intro hall e he
    refine updateVehiclesLoop_envs_congestion (stageLights c).1 vr 0
      c.vehicles (stageLights c).2 ?_ e he
    rw [show (stageLights c).2
        = (updateLightsLoop c.vehicles c.traffic_lights c.message_bus).2
      from rfl]
    rw [updateLightsLoop_anomaly]
    exact get_messages_of_busAllEmpty _ hall _

instance : Inhabited SimulationController :=
  ⟨{ grid := Grid.init 0, message_bus := MessageBus.init Unit BusMsg 100,
     verbose := false, current_step := 0, traffic_lights := [],
     vehicles := [], drones := [], drone_rng := [],
     stats := ⟨0, 0, 0, 0, 0⟩ }⟩

/-- Waypoint oracle of the C1 counterexample drone (patrol box
`[(0,0),(1,1)]`: the four corners plus three interior draws at
`(1,1)`). -/
def gensC1 : Nat → Nat → List Pos :=
  fun _ _ => [(0,0), (1,0), (1,1), (0,1), (1,1), (1,1), (1,1)]

/-- Vehicle oracle of the C1 counterexample (never consulted: the
congestion lists are empty). -/
def vrC1 : Nat → VRand := fun _ => rand0

/-- The C1 counterexample controller: a 5×5 grid, four vehicles from
`(0,0)` to `(0,2)`, one drone at `(0,0)`, all lights GREEN. -/
def c0C1 : SimulationController :=
  (SimulationController.init 5 4 1 false (fun _ => TrafficLightState.GREEN)
    (fun _ => ((0, 0), (0, 2))) (fun _ => (0, 0)) gensC1).toOption.getD
    default

/-- C1 fails on the code: starting `c0C1`, tick 1 ends with one drained
congestion anomaly (four vehicles crowd the drone), yet the first
vehicle view of tick 2 carries an empty congestion list — the global
bus clear at the end of tick 1 wiped the topic before any vehicle could
read it. -/
theorem C1_counterexample : ¬ claimC1 := by
  intro h
  have hok : (SimulationController.init 5 4 1 false
      (fun _ => TrafficLightState.GREEN) (fun _ => ((0, 0), (0, 2)))
      (fun _ => (0, 0)) gensC1).isOk = true := by
    with_unfolding_all rfl
  have h1 := h c0C1 vrC1 vrC1 gensC1
    ((vehiclePhaseEnvs (c0C1.step vrC1 gensC1) vrC1).headD ⟨[], []⟩)
    (by with_unfolding_all decide)
  revert h1
  with_unfolding_all decide

/-- Witness for `C1_congestion_view_always_empty` at the concrete
controller `c0C1` (whose bus starts empty). -/
theorem C1_congestion_view_always_empty_witness :
    busAllEmpty (c0C1.step vrC1 gensC1).message_bus ∧
    (∀ e ∈ vehiclePhaseEnvs c0C1 vrC1, e.congestion = []) :=
  ⟨(C1_congestion_view_always_empty c0C1 vrC1 gensC1).1,
   fun e he => (C1_congestion_view_always_empty c0C1 vrC1 gensC1).2
     (fun p hp => by
       rw [show c0C1.message_bus.messages = [] from by
         with_unfolding_all rfl] at hp
       cases hp) e he⟩
